import Mathlib

/-! # CM1106 I2C driver

A shallow embedding of `src/cm1106_i2c.h` and `src/cm1106_i2c.cpp` (class `CM1106_I2C`),
followed by the properties proved about it.

Conventions of the embedding

* `uint8_t` values are elements of `Fin 256`, `uint16_t` values elements of `Fin 65536`;
  all arithmetic is carried out on natural numbers with the wrap-around written out
  (`% 256`, `% 65536`).
* The object state (`status`, `co2`, `_buffer`, `_i2cPort`) is passed explicitly; every
  member function returns an `Outcome` holding the returned value, the new object state and
  the text sent to `Serial`.
* `ret` is the operand of the `return` statement that was executed.  A member function
  declared `uint8_t` that reaches its closing brace without executing a `return` statement
  yields `ret = none`: no value is returned by the code, and the byte the caller then reads
  is indeterminate.  `Outcome.returned` is that byte; `none` is never taken as a code.
* `int` expressions that are printed are kept with their operands (`SerialItem.hex`), their
  value depending on the width of `int` on the target (`shift_add_int`).
* The blocks under `#ifdef CM1106_I2C_DEBUG` are not compiled (the macro is commented out in
  the header) and are left out.  `delay` only lets time pass and is left out.
-/

namespace CM1106

/-! ## Machine integers -/

/-- A value of the C type `uint8_t`. -/
abbrev Byte := Fin 256

/-- A value of the C type `uint16_t`. -/
abbrev Word := Fin 65536

/-! ## Constants of `cm1106_i2c.h` -/

def CM1106_I2C_ADDRESS : Nat := 0x31

def CM1106_I2C_CMD_MEASURE_RESULT : Nat := 0x01
def CM1106_I2C_CMD_AUTO_ZERO_SETTING : Nat := 0x10
def CM1106_I2C_CMD_CALIBRATION : Nat := 0x03
def CM1106_I2C_CMD_READ_SERIAL_NUMBER : Nat := 0x1F
def CM1106_I2C_CMD_CHECK_SW_VERSION : Nat := 0x1E

def CM1106_I2C_DELAY_FOR_ACK : Nat := 500

/-! ## The transport (`TwoWire`) and the serial console -/

/-- One call made on the I2C port, as seen from the bus. -/
inductive WireEvent where
  | begin
  | beginTransmission (address : Nat)
  | write (data : Nat)
  | endTransmission
  | requestFrom (address : Nat) (quantity : Nat)
  deriving DecidableEq, Repr

/-- Modelled from the spec: the platform I2C port (`TwoWire`, from `Wire.h`), which is not part
of this repository.  `log` records the calls made on the port, oldest first; `rx` holds the
reply bytes that `available()` still reports and `read()` hands out one at a time. -/
structure TwoWire where
  log : List WireEvent
  rx : List Byte

namespace TwoWire

def begin (w : TwoWire) : TwoWire :=
  { w with log := w.log ++ [WireEvent.begin] }

def beginTransmission (w : TwoWire) (address : Nat) : TwoWire :=
  { w with log := w.log ++ [WireEvent.beginTransmission address] }

def write (w : TwoWire) (data : Nat) : TwoWire :=
  { w with log := w.log ++ [WireEvent.write data] }

def endTransmission (w : TwoWire) : TwoWire :=
  { w with log := w.log ++ [WireEvent.endTransmission] }

/-- The call `requestFrom(address, quantity)`; `reply` is what the device answers, and it
replaces whatever was left unread.  The reply is not cut to `quantity` here, so that the
driver's own bound on the number of bytes it takes is what is exercised. -/
def requestFrom (w : TwoWire) (address quantity : Nat) (reply : List Byte) : TwoWire :=
  { log := w.log ++ [WireEvent.requestFrom address quantity], rx := reply }

end TwoWire

/-- One item sent to `Serial`.  `hex hi lo` is the call `Serial.print((hi << 8) + lo, HEX)`
with the two `uint8_t` operands of its `int` argument; what that `int` holds depends on the
target, see `shift_add_int`. -/
inductive SerialItem where
  | str (s : String)
  | hex (hi lo : Byte)
  | chr (c : Byte)
  | ln
  deriving DecidableEq, Repr

/-! ## The class `CM1106_I2C` -/

/-- The data members of `class CM1106_I2C`. -/
structure CM1106_I2C where
  status : Byte
  co2 : Word
  _buffer : Fin 32 → Byte
  _i2cPort : TwoWire

/-- What a call of a member function leaves behind.  `ret` is the operand of the `return`
statement that was executed, `none` when control reached the closing brace of the function
without one. -/
structure Outcome where
  ret : Option Byte
  self : CM1106_I2C
  serial : List SerialItem

/-- The byte the caller of a `uint8_t` member function reads: the operand of the `return`
statement that was executed or, when the function ended without one, an indeterminate byte,
`indeterminate` standing for whatever the return register holds at that moment. -/
def Outcome.returned (o : Outcome) (indeterminate : Byte) : Byte :=
  match o.ret with
  | some code => code
  | none => indeterminate

/-- The value of the `int` expression `(hi << 8) + lo`, `hi` and `lo` being `uint8_t`, on a
target whose `int` has `int_bits` bits (at least 16) in two's complement: `256 * hi + lo` when
that fits, and `256 * hi + lo - 2 ^ int_bits` otherwise, as the AVR compiler gives it. -/
def shift_add_int (int_bits : Nat) (hi lo : Byte) : Int :=
  if (hi.val <<< 8) + lo.val < 2 ^ (int_bits - 1) then (((hi.val <<< 8) + lo.val : Nat) : Int)
  else (((hi.val <<< 8) + lo.val : Nat) : Int) - 2 ^ int_bits

/-- The assignment `_buffer[idx] = b`.  An index outside the array is left without effect;
the receive loops never produce one. -/
def store (buf : Fin 32 → Byte) (idx : Nat) (b : Byte) : Fin 32 → Byte :=
  if h : idx < 32 then Function.update buf ⟨idx, h⟩ b else buf

/-- The read `_buffer[i]`. -/
def load (buf : Fin 32 → Byte) (i : Nat) : Byte :=
  if h : i < 32 then buf ⟨i, h⟩ else 0

/-- The receive loop shared by the five commands, `n` being the literal of the command:
```
while (_i2cPort->available()) { uint8_t b = _i2cPort->read(); _buffer[idx++] = b; if (idx == n) break; }
```
Arguments: the unread bytes, `idx` and `_buffer`; result: `idx`, `_buffer` and the bytes
still unread when the loop is left. -/
def receive (n : Nat) : List Byte → Nat → (Fin 32 → Byte) → Nat × (Fin 32 → Byte) × List Byte
  | [], idx, buf => (idx, buf, [])
  | b :: rx, idx, buf =>
    let buf1 := store buf idx b
    let idx1 := (idx + 1) % 256
    if idx1 = n then (idx1, buf1, rx) else receive n rx idx1 buf1

/-- The checksum loop shared by the five commands, `k` being the literal of the command:
```
uint8_t check_code = 0; for (uint8_t i = 0; i < k; i++) { check_code -= _buffer[i]; }
```
-/
def check_code (buf : Fin 32 → Byte) (k : Nat) : Nat :=
  (List.range k).foldl (fun cc i => (cc + 256 - (load buf i).val) % 256) 0

/-- The expression `(_buffer[i] << 8) + _buffer[j]` of `measure_result`, as the natural
number `256 * _buffer[i] + _buffer[j]`.  It is only used where the `int` is converted to
`uint16_t`, and that conversion gives this number modulo 65536 whatever the width of `int`. -/
def word_at (buf : Fin 32 → Byte) (i j : Nat) : Nat :=
  ((load buf i).val <<< 8) + (load buf j).val

def begin (self : CM1106_I2C) (wirePort : TwoWire) : CM1106_I2C :=
  { self with _i2cPort := wirePort.begin }

def get_status (self : CM1106_I2C) : Outcome :=
  ⟨some self.status, self, []⟩

def measure_result (self : CM1106_I2C) (reply : List Byte) : Outcome :=
  let port := self._i2cPort.beginTransmission CM1106_I2C_ADDRESS
  let port := port.write CM1106_I2C_CMD_MEASURE_RESULT
  let port := port.endTransmission
  let port := port.requestFrom CM1106_I2C_ADDRESS 5 reply
  let (idx, buf, rx) := receive 5 port.rx 0 self._buffer
  let self := { self with _buffer := buf, _i2cPort := { port with rx := rx } }
  if idx < 5 then ⟨some 1, self, []⟩
  else if (load buf 0).val ≠ CM1106_I2C_CMD_MEASURE_RESULT then ⟨some 2, self, []⟩
  else if (load buf 4).val ≠ check_code buf 4 then ⟨some 3, self, []⟩
  else
    let self := { self with co2 := ⟨word_at buf 1 2 % 65536, Nat.mod_lt _ (by decide)⟩ }
    let self := { self with status := load buf 3 }
    ⟨some 0, self, []⟩

/-- The body of `auto_zero_setting`.  After the checksum test the source has no `return`
statement: `ret = none`, the caller reads an indeterminate byte. -/
def auto_zero_setting (self : CM1106_I2C) (zero_setting_switch period : Byte)
    (concentration_value : Word) (reply : List Byte) : Outcome :=
  if zero_setting_switch.val ≠ 0 ∧ zero_setting_switch.val ≠ 2 then ⟨some 4, self, []⟩
  else if period.val < 1 ∨ 15 < period.val then ⟨some 5, self, []⟩
  else if concentration_value.val < 400 ∨ 1499 < concentration_value.val then ⟨some 6, self, []⟩
  else
    let port := self._i2cPort.beginTransmission CM1106_I2C_ADDRESS
    let port := port.write CM1106_I2C_CMD_AUTO_ZERO_SETTING
    let port := port.write 100
    let port := port.write zero_setting_switch.val
    let port := port.write period.val
    let port := port.write ((concentration_value.val >>> 8) &&& 0xFF)
    let port := port.write (concentration_value.val &&& 0xFF)
    let port := port.write 100
    let port := port.endTransmission
    let port := port.requestFrom CM1106_I2C_ADDRESS 8 reply
    let (idx, buf, rx) := receive 8 port.rx 0 self._buffer
    let self := { self with _buffer := buf, _i2cPort := { port with rx := rx } }
    if idx < 8 then ⟨some 1, self, []⟩
    else if (load buf 0).val ≠ CM1106_I2C_CMD_AUTO_ZERO_SETTING then ⟨some 2, self, []⟩
    else if (load buf 7).val ≠ check_code buf 7 then ⟨some 3, self, []⟩
    else ⟨none, self, []⟩

/-- The body of `calibration`.  After the checksum test the source has no `return`
statement: `ret = none`, the caller reads an indeterminate byte. -/
def calibration (self : CM1106_I2C) (adjust_value : Word) (reply : List Byte) : Outcome :=
  if adjust_value.val < 400 ∨ 1500 < adjust_value.val then ⟨some 4, self, []⟩
  else
    let port := self._i2cPort.beginTransmission CM1106_I2C_ADDRESS
    let port := port.write CM1106_I2C_CMD_CALIBRATION
    let port := port.write ((adjust_value.val >>> 8) &&& 0xFF)
    let port := port.write (adjust_value.val &&& 0xFF)
    let port := port.endTransmission
    let port := port.requestFrom CM1106_I2C_ADDRESS 4 reply
    let (idx, buf, rx) := receive 4 port.rx 0 self._buffer
    let self := { self with _buffer := buf, _i2cPort := { port with rx := rx } }
    if idx < 4 then ⟨some 1, self, []⟩
    else if (load buf 0).val ≠ CM1106_I2C_CMD_CALIBRATION then ⟨some 2, self, []⟩
    else if (load buf 3).val ≠ check_code buf 3 then ⟨some 3, self, []⟩
    else ⟨none, self, []⟩

/-- The body of `read_serial_number`.  After the prints the source has no `return`
statement: `ret = none`, the caller reads an indeterminate byte. -/
def read_serial_number (self : CM1106_I2C) (reply : List Byte) : Outcome :=
  let port := self._i2cPort.beginTransmission CM1106_I2C_ADDRESS
  let port := port.write CM1106_I2C_CMD_READ_SERIAL_NUMBER
  let port := port.endTransmission
  let port := port.requestFrom CM1106_I2C_ADDRESS 12 reply
  let (idx, buf, rx) := receive 12 port.rx 0 self._buffer
  let self := { self with _buffer := buf, _i2cPort := { port with rx := rx } }
  if idx < 12 then ⟨some 1, self, []⟩
  else if (load buf 0).val ≠ CM1106_I2C_CMD_READ_SERIAL_NUMBER then ⟨some 2, self, []⟩
  else if (load buf 11).val ≠ check_code buf 11 then ⟨some 3, self, []⟩
  else
    ⟨none, self,
      [SerialItem.str "Serial number >>", SerialItem.ln,
       SerialItem.hex (load buf 1) (load buf 2), SerialItem.str "\t",
       SerialItem.hex (load buf 3) (load buf 4), SerialItem.str "\t",
       SerialItem.hex (load buf 5) (load buf 6), SerialItem.str "\t",
       SerialItem.hex (load buf 7) (load buf 8), SerialItem.str "\t",
       SerialItem.hex (load buf 9) (load buf 10), SerialItem.ln]⟩

/-- The body of `check_sw_version`.  After the prints the source has no `return`
statement: `ret = none`, the caller reads an indeterminate byte. -/
def check_sw_version (self : CM1106_I2C) (reply : List Byte) : Outcome :=
  let port := self._i2cPort.beginTransmission CM1106_I2C_ADDRESS
  let port := port.write CM1106_I2C_CMD_CHECK_SW_VERSION
  let port := port.endTransmission
  let port := port.requestFrom CM1106_I2C_ADDRESS 12 reply
  let (idx, buf, rx) := receive 12 port.rx 0 self._buffer
  let self := { self with _buffer := buf, _i2cPort := { port with rx := rx } }
  if idx < 12 then ⟨some 1, self, []⟩
  else if (load buf 0).val ≠ CM1106_I2C_CMD_CHECK_SW_VERSION then ⟨some 2, self, []⟩
  else if (load buf 11).val ≠ check_code buf 11 then ⟨some 3, self, []⟩
  else
    ⟨none, self,
      [SerialItem.str "SW version >>", SerialItem.ln]
        ++ ((List.range 9).map fun i => SerialItem.chr (load buf (i + 1)))
        ++ [SerialItem.ln]⟩

/-! ## Vocabulary of the statements -/

/-- The buffer once the leading bytes of `rx` have been stored at `idx`, `idx + 1`, ... below `n`. -/
def filled (n idx : Nat) (rx : List Byte) (buf : Fin 32 → Byte) : Fin 32 → Byte :=
  fun i => if idx ≤ i.val ∧ i.val < n then rx.getD (i.val - idx) (buf i) else buf i

/-- Sum of the first `k` bytes of a reply, without wrap-around. -/
def frameSum (k : Nat) (reply : List Byte) : Nat :=
  ((reply.take k).map Fin.val).sum

/-- The value returned by the validation that follows a receive loop taking `n` bytes for the
command `cmd`, in terms of the device reply; `accepted` stands for what the command does once
the frame has passed the three checks. -/
def frame_ret (n cmd : Nat) (reply : List Byte) (accepted : Option Byte) : Option Byte :=
  if reply.length < n then some 1
  else if (reply.getD 0 0).val ≠ cmd then some 2
  else if (reply.getD (n - 1) 0).val ≠ (256 - frameSum (n - 1) reply % 256) % 256 then some 3
  else accepted

/-- The checksum as the specification words it, "two's-complement negated sum (mod 256) of
all preceding bytes in the frame": `(256 - ((sum of the bytes) mod 256)) mod 256`.  This is
the reference the checksum loop `check_code` is compared with. -/
def checksum_spec (bytes : List Byte) : Nat :=
  (256 - (bytes.map Fin.val).sum % 256) % 256

/-- The header test and the checksum test of a command with frame length `n` and command
byte `cmd`, both passing, as the source evaluates them on `_buffer`:
`_buffer[0] == cmd` and `_buffer[n - 1] == check_code`. -/
def checks_pass (n cmd : Nat) (buf : Fin 32 → Byte) : Prop :=
  (load buf 0).val = cmd ∧ (load buf (n - 1)).val = check_code buf (n - 1)

/-- A session with zeroed members on an unused port, to instantiate the statements. -/
def session0 : CM1106_I2C :=
  ⟨0, 0, fun _ => 0, ⟨[], []⟩⟩

/-- A session that has cached a reading (400 ppm, status 1) and whose buffer and port still
hold the bytes of that exchange, to instantiate the statements. -/
def session1 : CM1106_I2C :=
  ⟨1, 400, fun i => if i.val = 0 then 0x01 else if i.val = 2 then 0x90 else if i.val = 4 then 0x6D
      else if i.val < 4 then 0x01 else 0xFF,
    ⟨[WireEvent.begin, WireEvent.beginTransmission 0x31, WireEvent.write 0x01,
      WireEvent.endTransmission, WireEvent.requestFrom 0x31 5], [0x07]⟩⟩

/-! ## Auxiliary facts about the two loops -/

theorem filled_of_le (n idx : Nat) (rx : List Byte) (buf : Fin 32 → Byte) (h : n ≤ idx) :
    filled n idx rx buf = buf := by
  funext i
  unfold filled
  rw [if_neg]
  omega

theorem filled_nil (n idx : Nat) (buf : Fin 32 → Byte) : filled n idx [] buf = buf := by
  funext i
  simp [filled]

theorem filled_cons (n idx : Nat) (b : Byte) (rx : List Byte) (buf : Fin 32 → Byte)
    (h : idx < n) (hn : n ≤ 32) :
    filled n idx (b :: rx) buf = filled n (idx + 1) rx (store buf idx b) := by
  funext i
  have hidx : idx < 32 := by omega
  unfold filled store
  rw [dif_pos hidx]
  rcases Nat.lt_trichotomy i.val idx with hlt | heq | hgt
  · have hne : i ≠ ⟨idx, hidx⟩ := fun e => by rw [e] at hlt; exact Nat.lt_irrefl _ hlt
    rw [if_neg (by omega), if_neg (by omega), Function.update_noteq hne]
  · have hi : i = ⟨idx, hidx⟩ := Fin.ext heq
    subst hi
    rw [if_pos ⟨Nat.le_refl _, h⟩, if_neg (by simp), Function.update_same]
    simp
  · have hne : i ≠ ⟨idx, hidx⟩ := fun e => by rw [e] at hgt; exact Nat.lt_irrefl _ hgt
    rw [Function.update_noteq hne]
    by_cases hin : i.val < n
    · rw [if_pos ⟨by omega, hin⟩, if_pos ⟨by omega, hin⟩]
      have : i.val - idx = (i.val - (idx + 1)) + 1 := by omega
      rw [this, List.getD_cons_succ]
    · rw [if_neg (by omega), if_neg (by omega)]

theorem receive_eq (n : Nat) (hn : n ≤ 32) (rx : List Byte) :
    ∀ (idx : Nat) (buf : Fin 32 → Byte), idx < n →
      receive n rx idx buf = (min n (idx + rx.length), filled n idx rx buf, rx.drop (n - idx)) := by
  induction rx with
  | nil =>
    intro idx buf h
    simp only [receive, List.length_nil, List.drop_nil, Nat.add_zero, filled_nil]
    rw [Nat.min_eq_right (Nat.le_of_lt h)]
  | cons b rx ih =>
    intro idx buf h
    have hmod : (idx + 1) % 256 = idx + 1 := Nat.mod_eq_of_lt (by omega)
    simp only [receive, hmod]
    rw [filled_cons n idx b rx buf h hn]
    by_cases hlast : idx + 1 = n
    · rw [if_pos hlast, filled_of_le n (idx + 1) rx _ (by omega)]
      have h1 : n - idx = 1 := by omega
      have h2 : min n (idx + (b :: rx).length) = idx + 1 := by
        simp only [List.length_cons]; omega
      rw [h1, h2]
      rfl
    · rw [if_neg hlast, ih (idx + 1) _ (by omega)]
      have h1 : n - idx = (n - (idx + 1)) + 1 := by omega
      have h2 : idx + (b :: rx).length = idx + 1 + rx.length := by
        simp only [List.length_cons]; omega
      rw [h1, h2, List.drop_succ_cons]

theorem load_filled (n : Nat) (hn : n ≤ 32) (reply : List Byte) (buf : Fin 32 → Byte) (i : Nat)
    (hi : i < n) (hlen : i < reply.length) :
    load (filled n 0 reply buf) i = reply.getD i 0 := by
  have h32 : i < 32 := by omega
  unfold load filled
  rw [dif_pos h32, if_pos ⟨Nat.zero_le _, hi⟩]
  simp only [Nat.sub_zero]
  rw [List.getD_eq_getElem _ _ hlen, List.getD_eq_getElem _ _ hlen]

theorem check_code_succ (buf : Fin 32 → Byte) (k : Nat) :
    check_code buf (k + 1) = (check_code buf k + 256 - (load buf k).val) % 256 := by
  unfold check_code
  rw [List.range_succ, List.foldl_append]
  rfl

theorem check_code_lt (buf : Fin 32 → Byte) (k : Nat) : check_code buf k < 256 := by
  cases k with
  | zero => simp [check_code]
  | succ k => rw [check_code_succ]; exact Nat.mod_lt _ (by decide)

theorem frameSum_succ (k : Nat) (reply : List Byte) (h : k < reply.length) :
    frameSum (k + 1) reply = frameSum k reply + (reply.getD k 0).val := by
  unfold frameSum
  rw [List.take_succ, List.getElem?_eq_getElem h, List.getD_eq_getElem _ _ h]
  simp only [Option.toList_some, List.map_append, List.sum_append, List.map_cons, List.map_nil,
    List.sum_cons, List.sum_nil, Nat.add_zero]

theorem check_code_filled (n : Nat) (hn : n ≤ 32) (reply : List Byte) (buf : Fin 32 → Byte) :
    ∀ k, k ≤ n → k ≤ reply.length →
      check_code (filled n 0 reply buf) k = (256 - frameSum k reply % 256) % 256 := by
  intro k
  induction k with
  | zero => intro _ _; simp [check_code, frameSum]
  | succ k ih =>
    intro h1 h2
    rw [check_code_succ, ih (by omega) (by omega), load_filled n hn reply buf k (by omega) (by omega),
      frameSum_succ k reply (by omega)]
    have := (reply.getD k 0).isLt
    omega

theorem measure_result_ret (self : CM1106_I2C) (reply : List Byte) :
    (measure_result self reply).ret = frame_ret 5 0x01 reply (some 0) := by
  unfold measure_result frame_ret
  simp only [TwoWire.requestFrom, receive_eq 5 (by decide) reply 0 _ (by decide), Nat.zero_add,
    Nat.sub_zero]
  by_cases h : reply.length < 5
  · rw [if_pos (by omega), if_pos h]
  · rw [if_neg (by omega), if_neg h,
      load_filled 5 (by decide) reply _ 0 (by decide) (by omega),
      load_filled 5 (by decide) reply _ 4 (by decide) (by omega),
      check_code_filled 5 (by decide) reply _ 4 (by decide) (by omega)]
    simp only [CM1106_I2C_CMD_MEASURE_RESULT]
    split_ifs <;> rfl

theorem auto_zero_setting_ret (self : CM1106_I2C) (zero_setting_switch period : Byte)
    (concentration_value : Word) (reply : List Byte)
    (hs : zero_setting_switch.val = 0 ∨ zero_setting_switch.val = 2)
    (hp : 1 ≤ period.val ∧ period.val ≤ 15)
    (hc : 400 ≤ concentration_value.val ∧ concentration_value.val ≤ 1499) :
    (auto_zero_setting self zero_setting_switch period concentration_value reply).ret
      = frame_ret 8 0x10 reply none := by
  unfold auto_zero_setting frame_ret
  rw [if_neg (by omega), if_neg (by omega), if_neg (by omega)]
  simp only [TwoWire.requestFrom, receive_eq 8 (by decide) reply 0 _ (by decide), Nat.zero_add,
    Nat.sub_zero]
  by_cases h : reply.length < 8
  · rw [if_pos (by omega), if_pos h]
  · rw [if_neg (by omega), if_neg h,
      load_filled 8 (by decide) reply _ 0 (by decide) (by omega),
      load_filled 8 (by decide) reply _ 7 (by decide) (by omega),
      check_code_filled 8 (by decide) reply _ 7 (by decide) (by omega)]
    simp only [CM1106_I2C_CMD_AUTO_ZERO_SETTING]
    split_ifs <;> rfl

theorem calibration_ret (self : CM1106_I2C) (adjust_value : Word) (reply : List Byte)
    (ha : 400 ≤ adjust_value.val ∧ adjust_value.val ≤ 1500) :
    (calibration self adjust_value reply).ret = frame_ret 4 0x03 reply none := by
  unfold calibration frame_ret
  rw [if_neg (by omega)]
  simp only [TwoWire.requestFrom, receive_eq 4 (by decide) reply 0 _ (by decide), Nat.zero_add,
    Nat.sub_zero]
  by_cases h : reply.length < 4
  · rw [if_pos (by omega), if_pos h]
  · rw [if_neg (by omega), if_neg h,
      load_filled 4 (by decide) reply _ 0 (by decide) (by omega),
      load_filled 4 (by decide) reply _ 3 (by decide) (by omega),
      check_code_filled 4 (by decide) reply _ 3 (by decide) (by omega)]
    simp only [CM1106_I2C_CMD_CALIBRATION]
    split_ifs <;> rfl

theorem read_serial_number_ret (self : CM1106_I2C) (reply : List Byte) :
    (read_serial_number self reply).ret = frame_ret 12 0x1F reply none := by
  unfold read_serial_number frame_ret
  simp only [TwoWire.requestFrom, receive_eq 12 (by decide) reply 0 _ (by decide), Nat.zero_add,
    Nat.sub_zero]
  by_cases h : reply.length < 12
  · rw [if_pos (by omega), if_pos h]
  · rw [if_neg (by omega), if_neg h,
      load_filled 12 (by decide) reply _ 0 (by decide) (by omega),
      load_filled 12 (by decide) reply _ 11 (by decide) (by omega),
      check_code_filled 12 (by decide) reply _ 11 (by decide) (by omega)]
    simp only [CM1106_I2C_CMD_READ_SERIAL_NUMBER]
    split_ifs <;> rfl

theorem check_sw_version_ret (self : CM1106_I2C) (reply : List Byte) :
    (check_sw_version self reply).ret = frame_ret 12 0x1E reply none := by
  unfold check_sw_version frame_ret
  simp only [TwoWire.requestFrom, receive_eq 12 (by decide) reply 0 _ (by decide), Nat.zero_add,
    Nat.sub_zero]
  by_cases h : reply.length < 12
  · rw [if_pos (by omega), if_pos h]
  · rw [if_neg (by omega), if_neg h,
      load_filled 12 (by decide) reply _ 0 (by decide) (by omega),
      load_filled 12 (by decide) reply _ 11 (by decide) (by omega),
      check_code_filled 12 (by decide) reply _ 11 (by decide) (by omega)]
    simp only [CM1106_I2C_CMD_CHECK_SW_VERSION]
    split_ifs <;> rfl

theorem word_at_filled (n : Nat) (hn : n ≤ 32) (reply : List Byte) (buf : Fin 32 → Byte)
    (i j : Nat) (hi : i < n) (hj : j < n) (hli : i < reply.length) (hlj : j < reply.length) :
    word_at (filled n 0 reply buf) i j = 256 * (reply.getD i 0).val + (reply.getD j 0).val := by
  unfold word_at
  rw [load_filled n hn reply buf i hi hli, load_filled n hn reply buf j hj hlj, Nat.shiftLeft_eq]
  omega

/-- The cached members after `measure_result`: either the frame was accepted and both were
taken from the reply, or the call failed and both are as before. -/
theorem measure_result_cached (self : CM1106_I2C) (reply : List Byte) :
    ((measure_result self reply).ret = some 0 ∧
      (measure_result self reply).self.co2.val
        = 256 * (reply.getD 1 0).val + (reply.getD 2 0).val ∧
      (measure_result self reply).self.status = reply.getD 3 0) ∨
    ((measure_result self reply).ret ≠ some 0 ∧
      (measure_result self reply).self.co2 = self.co2 ∧
      (measure_result self reply).self.status = self.status) := by
  unfold measure_result
  simp only [TwoWire.requestFrom, receive_eq 5 (by decide) reply 0 _ (by decide), Nat.zero_add,
    Nat.sub_zero]
  by_cases h : reply.length < 5
  · rw [if_pos (by omega)]
    exact Or.inr ⟨by simp, rfl, rfl⟩
  · rw [if_neg (by omega)]
    split_ifs
    · exact Or.inr ⟨by simp, rfl, rfl⟩
    · exact Or.inr ⟨by simp, rfl, rfl⟩
    · refine Or.inl ⟨rfl, ?_, ?_⟩
      · show word_at (filled 5 0 reply self._buffer) 1 2 % 65536 = _
        rw [word_at_filled 5 (by decide) reply _ 1 2 (by decide) (by decide) (by omega) (by omega)]
        have h1 := (reply.getD 1 0).isLt
        have h2 := (reply.getD 2 0).isLt
        omega
      · exact load_filled 5 (by decide) reply _ 3 (by decide) (by omega)

/-! ## Properties of the driver -/

/-- C1: every reply of at least five bytes `b0 .. b4` with `b0 = 0x01` and
`b4 = (0 - (b0 + b1 + b2 + b3)) mod 256` makes `measure_result` return 0, leaving
`co2 = 256 * b1 + b2` and `status = b3`, which `get_status` then returns. -/
theorem measure_result_decodes (self : CM1106_I2C) (b0 b1 b2 b3 b4 : Byte) (rest : List Byte)
    (hhdr : b0.val = 0x01)
    (hcs : (b4.val : Int) = (0 - ((b0.val : Int) + b1.val + b2.val + b3.val)) % 256) :
    (measure_result self (b0 :: b1 :: b2 :: b3 :: b4 :: rest)).ret = some 0 ∧
    (measure_result self (b0 :: b1 :: b2 :: b3 :: b4 :: rest)).self.co2.val
      = 256 * b1.val + b2.val ∧
    (measure_result self (b0 :: b1 :: b2 :: b3 :: b4 :: rest)).self.status = b3 ∧
    (get_status (measure_result self (b0 :: b1 :: b2 :: b3 :: b4 :: rest)).self).ret
      = some b3 := by
  have hret : (measure_result self (b0 :: b1 :: b2 :: b3 :: b4 :: rest)).ret = some 0 := by
    rw [measure_result_ret]
    unfold frame_ret frameSum
    simp only [List.length_cons, List.getD_cons_zero, List.getD_cons_succ, List.take_succ_cons,
      List.take_zero, List.map_cons, List.map_nil, List.sum_cons, List.sum_nil]
    have h4 := b4.isLt
    rw [if_neg (by omega), if_neg (by omega), if_neg (by omega)]
  rcases measure_result_cached self (b0 :: b1 :: b2 :: b3 :: b4 :: rest) with h | h
  · simp only [List.getD_cons_zero, List.getD_cons_succ] at h
    exact ⟨h.1, h.2.1, h.2.2, by rw [get_status, h.2.2]⟩
  · exact absurd hret h.1

theorem measure_result_decodes_witness :
    ((1 : Byte).val = 0x01 ∧
      (((0x6D : Byte).val : Int)
        = (0 - (((1 : Byte).val : Int) + (1 : Byte).val + (0x90 : Byte).val + (1 : Byte).val)) % 256)) ∧
    ((measure_result session0 [1, 1, 0x90, 1, 0x6D]).ret = some 0 ∧
      (measure_result session0 [1, 1, 0x90, 1, 0x6D]).self.co2.val = 256 * (1 : Byte).val + (0x90 : Byte).val ∧
      (measure_result session0 [1, 1, 0x90, 1, 0x6D]).self.status = 1 ∧
      (get_status (measure_result session0 [1, 1, 0x90, 1, 0x6D]).self).ret = some 1) :=
  ⟨⟨by decide, by decide⟩, measure_result_decodes session0 1 1 0x90 1 0x6D [] (by decide) (by decide)⟩

theorem frame_ret_short (n cmd : Nat) (reply : List Byte) (accepted : Option Byte)
    (h : reply.length < n) : frame_ret n cmd reply accepted = some 1 := by
  unfold frame_ret
  rw [if_pos h]

theorem frame_ret_header (n cmd : Nat) (reply : List Byte) (accepted : Option Byte)
    (h : n ≤ reply.length) (hhdr : (reply.getD 0 0).val ≠ cmd) :
    frame_ret n cmd reply accepted = some 2 := by
  unfold frame_ret
  rw [if_neg (by omega), if_pos hhdr]

theorem frame_ret_checksum (n cmd : Nat) (reply : List Byte) (accepted : Option Byte)
    (h : n ≤ reply.length) (hhdr : (reply.getD 0 0).val = cmd)
    (hcs : ((reply.getD (n - 1) 0).val : Int) ≠ (0 - (frameSum (n - 1) reply : Int)) % 256) :
    frame_ret n cmd reply accepted = some 3 := by
  unfold frame_ret
  have hb := (reply.getD (n - 1) 0).isLt
  rw [if_neg (by omega), if_neg (by omega), if_pos (by omega)]

theorem frame_ret_accepted (n cmd : Nat) (reply : List Byte) (accepted : Option Byte)
    (h : n ≤ reply.length) (hhdr : (reply.getD 0 0).val = cmd)
    (hcs : ((reply.getD (n - 1) 0).val : Int) = (0 - (frameSum (n - 1) reply : Int)) % 256) :
    frame_ret n cmd reply accepted = accepted := by
  unfold frame_ret
  have hb := (reply.getD (n - 1) 0).isLt
  rw [if_neg (by omega), if_neg (by omega), if_neg (by omega)]

/-- C2: in each of the five commands, a reply of at least `N` bytes (`N` = 5, 8, 4, 12, 12)
whose first byte is the command sent and whose byte `N - 1` differs from
`(0 - sum of bytes 0 .. N - 2) mod 256` makes the command return 3; the parameters of
`auto_zero_setting` and `calibration` are taken in range. -/
theorem checksum_mismatch_returns_3 (self : CM1106_I2C) (reply : List Byte)
    (zero_setting_switch period : Byte) (concentration_value adjust_value : Word) :
    (5 ≤ reply.length → (reply.getD 0 0).val = 0x01 →
      ((reply.getD 4 0).val : Int) ≠ (0 - (frameSum 4 reply : Int)) % 256 →
      (measure_result self reply).ret = some 3) ∧
    ((zero_setting_switch.val = 0 ∨ zero_setting_switch.val = 2) →
      (1 ≤ period.val ∧ period.val ≤ 15) →
      (400 ≤ concentration_value.val ∧ concentration_value.val ≤ 1499) →
      8 ≤ reply.length → (reply.getD 0 0).val = 0x10 →
      ((reply.getD 7 0).val : Int) ≠ (0 - (frameSum 7 reply : Int)) % 256 →
      (auto_zero_setting self zero_setting_switch period concentration_value reply).ret
        = some 3) ∧
    ((400 ≤ adjust_value.val ∧ adjust_value.val ≤ 1500) →
      4 ≤ reply.length → (reply.getD 0 0).val = 0x03 →
      ((reply.getD 3 0).val : Int) ≠ (0 - (frameSum 3 reply : Int)) % 256 →
      (calibration self adjust_value reply).ret = some 3) ∧
    (12 ≤ reply.length → (reply.getD 0 0).val = 0x1F →
      ((reply.getD 11 0).val : Int) ≠ (0 - (frameSum 11 reply : Int)) % 256 →
      (read_serial_number self reply).ret = some 3) ∧
    (12 ≤ reply.length → (reply.getD 0 0).val = 0x1E →
      ((reply.getD 11 0).val : Int) ≠ (0 - (frameSum 11 reply : Int)) % 256 →
      (check_sw_version self reply).ret = some 3) := by
  refine ⟨?_, ?_, ?_, ?_, ?_⟩
  · intro h hhdr hcs
    rw [measure_result_ret]
    exact frame_ret_checksum 5 0x01 reply _ h hhdr hcs
  · intro hs hp hc h hhdr hcs
    rw [auto_zero_setting_ret self _ _ _ reply hs hp hc]
    exact frame_ret_checksum 8 0x10 reply _ h hhdr hcs
  · intro ha h hhdr hcs
    rw [calibration_ret self _ reply ha]
    exact frame_ret_checksum 4 0x03 reply _ h hhdr hcs
  · intro h hhdr hcs
    rw [read_serial_number_ret]
    exact frame_ret_checksum 12 0x1F reply _ h hhdr hcs
  · intro h hhdr hcs
    rw [check_sw_version_ret]
    exact frame_ret_checksum 12 0x1E reply _ h hhdr hcs

theorem checksum_mismatch_returns_3_witness :
    (measure_result session0 [0x01, 0x01, 0x90, 0x01, 0x00]).ret = some 3 ∧
    (auto_zero_setting session0 0 1 400 [0x10, 100, 0, 1, 0x01, 0x90, 100, 0x00]).ret
      = some 3 ∧
    (calibration session0 400 [0x03, 0x01, 0x90, 0x00]).ret = some 3 ∧
    (read_serial_number session0 [0x1F, 0, 1, 0, 2, 0, 3, 0, 4, 0, 5, 0x00]).ret = some 3 ∧
    (check_sw_version session0 [0x1E, 0x31, 0x2E, 0x30, 0, 0, 0, 0, 0, 0, 0, 0x00]).ret
      = some 3 :=
  ⟨(checksum_mismatch_returns_3 session0 [0x01, 0x01, 0x90, 0x01, 0x00] 0 1 400 400).1
      (by decide) (by decide) (by decide),
   (checksum_mismatch_returns_3 session0 [0x10, 100, 0, 1, 0x01, 0x90, 100, 0x00]
      0 1 400 400).2.1 (by decide) (by decide) (by decide) (by decide) (by decide) (by decide),
   (checksum_mismatch_returns_3 session0 [0x03, 0x01, 0x90, 0x00] 0 1 400 400).2.2.1
      (by decide) (by decide) (by decide) (by decide),
   (checksum_mismatch_returns_3 session0 [0x1F, 0, 1, 0, 2, 0, 3, 0, 4, 0, 5, 0x00]
      0 1 400 400).2.2.2.1 (by decide) (by decide) (by decide),
   (checksum_mismatch_returns_3 session0 [0x1E, 0x31, 0x2E, 0x30, 0, 0, 0, 0, 0, 0, 0, 0x00]
      0 1 400 400).2.2.2.2 (by decide) (by decide) (by decide)⟩

/-- C3: in each of the five commands (command bytes 0x01, 0x10, 0x03, 0x1F, 0x1E), a reply of
at least `N` bytes whose first byte is not the command byte makes the command return 2,
whatever the other bytes are; no condition is put on the checksum byte, the header being
checked first.  The parameters of `auto_zero_setting` and `calibration` are taken in range. -/
theorem header_mismatch_returns_2 (self : CM1106_I2C) (reply : List Byte)
    (zero_setting_switch period : Byte) (concentration_value adjust_value : Word) :
    (5 ≤ reply.length → (reply.getD 0 0).val ≠ 0x01 →
      (measure_result self reply).ret = some 2) ∧
    ((zero_setting_switch.val = 0 ∨ zero_setting_switch.val = 2) →
      (1 ≤ period.val ∧ period.val ≤ 15) →
      (400 ≤ concentration_value.val ∧ concentration_value.val ≤ 1499) →
      8 ≤ reply.length → (reply.getD 0 0).val ≠ 0x10 →
      (auto_zero_setting self zero_setting_switch period concentration_value reply).ret
        = some 2) ∧
    ((400 ≤ adjust_value.val ∧ adjust_value.val ≤ 1500) →
      4 ≤ reply.length → (reply.getD 0 0).val ≠ 0x03 →
      (calibration self adjust_value reply).ret = some 2) ∧
    (12 ≤ reply.length → (reply.getD 0 0).val ≠ 0x1F →
      (read_serial_number self reply).ret = some 2) ∧
    (12 ≤ reply.length → (reply.getD 0 0).val ≠ 0x1E →
      (check_sw_version self reply).ret = some 2) := by
  refine ⟨?_, ?_, ?_, ?_, ?_⟩
  · intro h hhdr
    rw [measure_result_ret]
    exact frame_ret_header 5 0x01 reply _ h hhdr
  · intro hs hp hc h hhdr
    rw [auto_zero_setting_ret self _ _ _ reply hs hp hc]
    exact frame_ret_header 8 0x10 reply _ h hhdr
  · intro ha h hhdr
    rw [calibration_ret self _ reply ha]
    exact frame_ret_header 4 0x03 reply _ h hhdr
  · intro h hhdr
    rw [read_serial_number_ret]
    exact frame_ret_header 12 0x1F reply _ h hhdr
  · intro h hhdr
    rw [check_sw_version_ret]
    exact frame_ret_header 12 0x1E reply _ h hhdr

theorem header_mismatch_returns_2_witness :
    ((((([0x02, 0x01, 0x90, 0x01, 0x6C] : List Byte).getD 4 0).val : Int)
        = (0 - (frameSum 4 [0x02, 0x01, 0x90, 0x01, 0x6C] : Int)) % 256) ∧
      (measure_result session0 [0x02, 0x01, 0x90, 0x01, 0x6C]).ret = some 2) ∧
    ((((([0x11, 100, 0, 1, 0x01, 0x90, 100, 0x95] : List Byte).getD 7 0).val : Int)
        = (0 - (frameSum 7 [0x11, 100, 0, 1, 0x01, 0x90, 100, 0x95] : Int)) % 256) ∧
      (auto_zero_setting session0 0 1 400 [0x11, 100, 0, 1, 0x01, 0x90, 100, 0x95]).ret
        = some 2) ∧
    ((((([0x04, 0x01, 0x90, 0x6B] : List Byte).getD 3 0).val : Int)
        = (0 - (frameSum 3 [0x04, 0x01, 0x90, 0x6B] : Int)) % 256) ∧
      (calibration session0 400 [0x04, 0x01, 0x90, 0x6B]).ret = some 2) ∧
    ((((([0x1E, 0, 1, 0, 2, 0, 3, 0, 4, 0, 5, 0xD3] : List Byte).getD 11 0).val : Int)
        = (0 - (frameSum 11 [0x1E, 0, 1, 0, 2, 0, 3, 0, 4, 0, 5, 0xD3] : Int)) % 256) ∧
      (read_serial_number session0 [0x1E, 0, 1, 0, 2, 0, 3, 0, 4, 0, 5, 0xD3]).ret = some 2) ∧
    ((((([0x1F, 0x31, 0x2E, 0x30, 0, 0, 0, 0, 0, 0, 0, 0x52] : List Byte).getD 11 0).val : Int)
        = (0 - (frameSum 11 [0x1F, 0x31, 0x2E, 0x30, 0, 0, 0, 0, 0, 0, 0, 0x52] : Int)) % 256) ∧
      (check_sw_version session0 [0x1F, 0x31, 0x2E, 0x30, 0, 0, 0, 0, 0, 0, 0, 0x52]).ret
        = some 2) :=
  ⟨⟨by decide,
    (header_mismatch_returns_2 session0 [0x02, 0x01, 0x90, 0x01, 0x6C] 0 1 400 400).1
      (by decide) (by decide)⟩,
   ⟨by decide,
    (header_mismatch_returns_2 session0 [0x11, 100, 0, 1, 0x01, 0x90, 100, 0x95]
      0 1 400 400).2.1 (by decide) (by decide) (by decide) (by decide) (by decide)⟩,
   ⟨by decide,
    (header_mismatch_returns_2 session0 [0x04, 0x01, 0x90, 0x6B] 0 1 400 400).2.2.1
      (by decide) (by decide) (by decide)⟩,
   ⟨by decide,
    (header_mismatch_returns_2 session0 [0x1E, 0, 1, 0, 2, 0, 3, 0, 4, 0, 5, 0xD3]
      0 1 400 400).2.2.2.1 (by decide) (by decide)⟩,
   ⟨by decide,
    (header_mismatch_returns_2 session0 [0x1F, 0x31, 0x2E, 0x30, 0, 0, 0, 0, 0, 0, 0, 0x52]
      0 1 400 400).2.2.2.2 (by decide) (by decide)⟩⟩

/-- C4: in each of the five commands, a reply of fewer than `N` bytes (`N` = 5, 8, 4, 12, 12),
the empty reply included, makes the command return 1, whatever bytes were received and
whatever the session (its receive buffer in particular) held before the call.  The parameters
of `auto_zero_setting` and `calibration` are taken in range. -/
theorem short_reply_returns_1 (self : CM1106_I2C) (reply : List Byte)
    (zero_setting_switch period : Byte) (concentration_value adjust_value : Word) :
    (reply.length < 5 → (measure_result self reply).ret = some 1) ∧
    ((zero_setting_switch.val = 0 ∨ zero_setting_switch.val = 2) →
      (1 ≤ period.val ∧ period.val ≤ 15) →
      (400 ≤ concentration_value.val ∧ concentration_value.val ≤ 1499) →
      reply.length < 8 →
      (auto_zero_setting self zero_setting_switch period concentration_value reply).ret
        = some 1) ∧
    ((400 ≤ adjust_value.val ∧ adjust_value.val ≤ 1500) →
      reply.length < 4 → (calibration self adjust_value reply).ret = some 1) ∧
    (reply.length < 12 → (read_serial_number self reply).ret = some 1) ∧
    (reply.length < 12 → (check_sw_version self reply).ret = some 1) := by
  refine ⟨?_, ?_, ?_, ?_, ?_⟩
  · intro h
    rw [measure_result_ret]
    exact frame_ret_short 5 0x01 reply _ h
  · intro hs hp hc h
    rw [auto_zero_setting_ret self _ _ _ reply hs hp hc]
    exact frame_ret_short 8 0x10 reply _ h
  · intro ha h
    rw [calibration_ret self _ reply ha]
    exact frame_ret_short 4 0x03 reply _ h
  · intro h
    rw [read_serial_number_ret]
    exact frame_ret_short 12 0x1F reply _ h
  · intro h
    rw [check_sw_version_ret]
    exact frame_ret_short 12 0x1E reply _ h

theorem short_reply_returns_1_witness :
    (measure_result session0 [0x01, 0x01, 0x90, 0x01]).ret = some 1 ∧
    (auto_zero_setting session0 2 15 1499 []).ret = some 1 ∧
    (calibration session0 1500 [0x03, 0x05, 0xDC]).ret = some 1 ∧
    (read_serial_number session0 [0x1F, 0, 1, 0, 2, 0, 3, 0, 4, 0]).ret = some 1 ∧
    (check_sw_version session0 []).ret = some 1 :=
  ⟨(short_reply_returns_1 session0 [0x01, 0x01, 0x90, 0x01] 0 1 400 400).1 (by decide),
   (short_reply_returns_1 session0 [] 2 15 1499 400).2.1
      (by decide) (by decide) (by decide) (by decide),
   (short_reply_returns_1 session0 [0x03, 0x05, 0xDC] 0 1 400 1500).2.2.1
      (by decide) (by decide),
   (short_reply_returns_1 session0 [0x1F, 0, 1, 0, 2, 0, 3, 0, 4, 0] 0 1 400 400).2.2.2.1
      (by decide),
   (short_reply_returns_1 session0 [] 0 1 400 400).2.2.2.2 (by decide)⟩

/-- C7: the cached members are updated all-or-nothing.  If `measure_result` returns a
non-zero code, `co2` and `status` both keep the values they had before the call; and
`auto_zero_setting`, `calibration`, `read_serial_number`, `check_sw_version` and `get_status`
leave `co2` and `status` unchanged for every argument and every reply, whatever they return. -/
theorem cached_state_all_or_nothing (self : CM1106_I2C) (reply : List Byte)
    (zero_setting_switch period : Byte) (concentration_value adjust_value : Word) :
    ((measure_result self reply).ret ≠ some 0 →
      (measure_result self reply).self.co2 = self.co2 ∧
      (measure_result self reply).self.status = self.status) ∧
    ((auto_zero_setting self zero_setting_switch period concentration_value reply).self.co2
        = self.co2 ∧
      (auto_zero_setting self zero_setting_switch period concentration_value reply).self.status
        = self.status) ∧
    ((calibration self adjust_value reply).self.co2 = self.co2 ∧
      (calibration self adjust_value reply).self.status = self.status) ∧
    ((read_serial_number self reply).self.co2 = self.co2 ∧
      (read_serial_number self reply).self.status = self.status) ∧
    ((check_sw_version self reply).self.co2 = self.co2 ∧
      (check_sw_version self reply).self.status = self.status) ∧
    ((get_status self).self.co2 = self.co2 ∧ (get_status self).self.status = self.status) := by
  refine ⟨?_, ?_, ?_, ?_, ?_, rfl, rfl⟩
  · intro hret
    rcases measure_result_cached self reply with h | h
    · exact absurd h.1 hret
    · exact h.2
  · unfold auto_zero_setting
    simp only [TwoWire.requestFrom, receive_eq 8 (by decide) reply 0 _ (by decide)]
    split_ifs <;> exact ⟨rfl, rfl⟩
  · unfold calibration
    simp only [TwoWire.requestFrom, receive_eq 4 (by decide) reply 0 _ (by decide)]
    split_ifs <;> exact ⟨rfl, rfl⟩
  · unfold read_serial_number
    simp only [TwoWire.requestFrom, receive_eq 12 (by decide) reply 0 _ (by decide)]
    split_ifs <;> exact ⟨rfl, rfl⟩
  · unfold check_sw_version
    simp only [TwoWire.requestFrom, receive_eq 12 (by decide) reply 0 _ (by decide)]
    split_ifs <;> exact ⟨rfl, rfl⟩

theorem cached_state_all_or_nothing_witness :
    ((measure_result session1 [0x01, 0x13, 0x88, 0x02, 0x00]).ret ≠ some 0) ∧
    ((measure_result session1 [0x01, 0x13, 0x88, 0x02, 0x00]).self.co2 = session1.co2 ∧
      (measure_result session1 [0x01, 0x13, 0x88, 0x02, 0x00]).self.status
        = session1.status) :=
  ⟨by decide,
   (cached_state_all_or_nothing session1 [0x01, 0x13, 0x88, 0x02, 0x00] 0 1 400 400).1
      (by decide)⟩

/-- C8 (the code at the inputs where it departs from the claim): on an accepted frame
`auto_zero_setting`, `calibration`, `read_serial_number` and `check_sw_version` reach the end
of their body without a `return` statement, so no value, and in particular not 0, is
returned. -/
theorem success_path_returns_no_value (self : CM1106_I2C) :
    (auto_zero_setting self 0 1 400 [0x10, 100, 0, 1, 0x01, 0x90, 100, 0x96]).ret = none ∧
    (calibration self 400 [0x03, 0x01, 0x90, 0x6C]).ret = none ∧
    (read_serial_number self [0x1F, 0, 1, 0, 2, 0, 3, 0, 4, 0, 5, 0xD2]).ret = none ∧
    (check_sw_version self [0x1E, 0x31, 0x2E, 0x30, 0, 0, 0, 0, 0, 0, 0, 0x53]).ret = none := by
  refine ⟨?_, ?_, ?_, ?_⟩
  · rw [auto_zero_setting_ret self _ _ _ _ (by decide) (by decide) (by decide)]
    decide
  · rw [calibration_ret self _ _ (by decide)]
    decide
  · rw [read_serial_number_ret]
    decide
  · rw [check_sw_version_ret]
    decide

/-- C9 (as stated, refuted): `(0 - (0x01 + 0x01 + 0x90 + 0x01)) mod 256` is not 0xCC, and the
reply `[0x01, 0x01, 0x90, 0x01, 0xCC]` makes `measure_result` return 3, not 0, without
caching 400. -/
theorem scenario_checksum_CC_rejected :
    (0 - ((0x01 : Int) + 0x01 + 0x90 + 0x01)) % 256 ≠ 0xCC ∧
    (measure_result session0 [0x01, 0x01, 0x90, 0x01, 0xCC]).ret ≠ some 0 ∧
    (measure_result session0 [0x01, 0x01, 0x90, 0x01, 0xCC]).ret = some 3 ∧
    (measure_result session0 [0x01, 0x01, 0x90, 0x01, 0xCC]).self.co2.val ≠ 400 := by
  decide

/-- C9 (amended): `(0 - (0x01 + 0x01 + 0x90 + 0x01)) mod 256` is 0x6D, and for the reply
`[0x01, 0x01, 0x90, 0x01, 0x6D]` `measure_result` returns 0 with `co2 = 0x0190 = 400` and
`status = 1`, from every session state. -/
theorem scenario_checksum_6D_accepted (self : CM1106_I2C) :
    (0 - ((0x01 : Int) + 0x01 + 0x90 + 0x01)) % 256 = 0x6D ∧
    (0x0190 : Nat) = 400 ∧
    (measure_result self [0x01, 0x01, 0x90, 0x01, 0x6D]).ret = some 0 ∧
    (measure_result self [0x01, 0x01, 0x90, 0x01, 0x6D]).self.co2.val = 400 ∧
    (measure_result self [0x01, 0x01, 0x90, 0x01, 0x6D]).self.status = 1 := by
  rcases measure_result_cached self [0x01, 0x01, 0x90, 0x01, 0x6D] with h | h
  · exact ⟨by decide, by decide, h.1, h.2.1, h.2.2⟩
  · exact absurd (by rw [measure_result_ret]; decide) h.1

theorem low_byte_eq (x : Nat) : x &&& 0xFF = x % 256 :=
  Nat.and_pow_two_sub_one_eq_mod x 8

theorem high_byte_eq (x : Nat) (h : x < 65536) : (x >>> 8) &&& 0xFF = x / 256 := by
  rw [low_byte_eq, Nat.shiftRight_eq_div_pow]
  have : x / 2 ^ 8 = x / 256 := rfl
  omega

/-- C10: for every in-range argument triple, every session state and every reply,
`auto_zero_setting` adds to the port exactly one transmission to address 0x31 carrying the
7 bytes `0x10, 100, zero_setting_switch, period, hi, lo, 100` in that order, with
`hi = concentration_value / 256` and `lo = concentration_value mod 256` (so
`256 * hi + lo = concentration_value` and `hi <= 5`), no further byte before the end of the
transmission, and then one request for exactly 8 bytes. -/
theorem auto_zero_setting_request (self : CM1106_I2C) (zero_setting_switch period : Byte)
    (concentration_value : Word) (reply : List Byte)
    (hs : zero_setting_switch.val = 0 ∨ zero_setting_switch.val = 2)
    (hp : 1 ≤ period.val ∧ period.val ≤ 15)
    (hc : 400 ≤ concentration_value.val ∧ concentration_value.val ≤ 1499) :
    (auto_zero_setting self zero_setting_switch period concentration_value reply).self._i2cPort.log
      = self._i2cPort.log ++
        [WireEvent.beginTransmission 0x31,
         WireEvent.write 0x10,
         WireEvent.write 100,
         WireEvent.write zero_setting_switch.val,
         WireEvent.write period.val,
         WireEvent.write (concentration_value.val / 256),
         WireEvent.write (concentration_value.val % 256),
         WireEvent.write 100,
         WireEvent.endTransmission,
         WireEvent.requestFrom 0x31 8] ∧
    256 * (concentration_value.val / 256) + concentration_value.val % 256
      = concentration_value.val ∧
    concentration_value.val / 256 ≤ 5 := by
  refine ⟨?_, by omega, by omega⟩
  unfold auto_zero_setting
  rw [if_neg (by omega), if_neg (by omega), if_neg (by omega)]
  simp only [TwoWire.requestFrom, receive_eq 8 (by decide) reply 0 _ (by decide),
    TwoWire.beginTransmission, TwoWire.write, TwoWire.endTransmission,
    CM1106_I2C_ADDRESS, CM1106_I2C_CMD_AUTO_ZERO_SETTING, low_byte_eq,
    high_byte_eq concentration_value.val concentration_value.isLt]
  split_ifs <;> simp only [List.append_assoc, List.cons_append, List.nil_append]

theorem auto_zero_setting_request_witness :
    (auto_zero_setting session1 2 7 1000 [0x10, 100, 2, 7, 0x03, 0xE8, 100, 0x38]).self._i2cPort.log
      = session1._i2cPort.log ++
        [WireEvent.beginTransmission 0x31,
         WireEvent.write 0x10,
         WireEvent.write 100,
         WireEvent.write 2,
         WireEvent.write 7,
         WireEvent.write 3,
         WireEvent.write 232,
         WireEvent.write 100,
         WireEvent.endTransmission,
         WireEvent.requestFrom 0x31 8] :=
  (auto_zero_setting_request session1 2 7 1000 [0x10, 100, 2, 7, 0x03, 0xE8, 100, 0x38]
    (by decide) (by decide) (by decide)).1

/-! ## The state left by each command, in terms of the reply -/

theorem measure_result_buffer (self : CM1106_I2C) (reply : List Byte) :
    (measure_result self reply).self._buffer = filled 5 0 reply self._buffer := by
  unfold measure_result
  simp only [TwoWire.requestFrom, receive_eq 5 (by decide) reply 0 _ (by decide)]
  split_ifs <;> rfl

theorem measure_result_port (self : CM1106_I2C) (reply : List Byte) :
    (measure_result self reply).self._i2cPort
      = ⟨self._i2cPort.log ++ [WireEvent.beginTransmission 0x31, WireEvent.write 0x01,
          WireEvent.endTransmission, WireEvent.requestFrom 0x31 5], reply.drop 5⟩ := by
  unfold measure_result
  simp only [TwoWire.requestFrom, receive_eq 5 (by decide) reply 0 _ (by decide),
    TwoWire.beginTransmission, TwoWire.write, TwoWire.endTransmission,
    CM1106_I2C_ADDRESS, CM1106_I2C_CMD_MEASURE_RESULT, Nat.sub_zero]
  split_ifs <;> simp only [List.append_assoc, List.cons_append, List.nil_append]

theorem read_serial_number_buffer (self : CM1106_I2C) (reply : List Byte) :
    (read_serial_number self reply).self._buffer = filled 12 0 reply self._buffer := by
  unfold read_serial_number
  simp only [TwoWire.requestFrom, receive_eq 12 (by decide) reply 0 _ (by decide)]
  split_ifs <;> rfl

theorem read_serial_number_port (self : CM1106_I2C) (reply : List Byte) :
    (read_serial_number self reply).self._i2cPort
      = ⟨self._i2cPort.log ++ [WireEvent.beginTransmission 0x31, WireEvent.write 0x1F,
          WireEvent.endTransmission, WireEvent.requestFrom 0x31 12], reply.drop 12⟩ := by
  unfold read_serial_number
  simp only [TwoWire.requestFrom, receive_eq 12 (by decide) reply 0 _ (by decide),
    TwoWire.beginTransmission, TwoWire.write, TwoWire.endTransmission,
    CM1106_I2C_ADDRESS, CM1106_I2C_CMD_READ_SERIAL_NUMBER, Nat.sub_zero]
  split_ifs <;> simp only [List.append_assoc, List.cons_append, List.nil_append]

theorem check_sw_version_buffer (self : CM1106_I2C) (reply : List Byte) :
    (check_sw_version self reply).self._buffer = filled 12 0 reply self._buffer := by
  unfold check_sw_version
  simp only [TwoWire.requestFrom, receive_eq 12 (by decide) reply 0 _ (by decide)]
  split_ifs <;> rfl

theorem check_sw_version_port (self : CM1106_I2C) (reply : List Byte) :
    (check_sw_version self reply).self._i2cPort
      = ⟨self._i2cPort.log ++ [WireEvent.beginTransmission 0x31, WireEvent.write 0x1E,
          WireEvent.endTransmission, WireEvent.requestFrom 0x31 12], reply.drop 12⟩ := by
  unfold check_sw_version
  simp only [TwoWire.requestFrom, receive_eq 12 (by decide) reply 0 _ (by decide),
    TwoWire.beginTransmission, TwoWire.write, TwoWire.endTransmission,
    CM1106_I2C_ADDRESS, CM1106_I2C_CMD_CHECK_SW_VERSION, Nat.sub_zero]
  split_ifs <;> simp only [List.append_assoc, List.cons_append, List.nil_append]

theorem auto_zero_setting_buffer (self : CM1106_I2C) (zero_setting_switch period : Byte)
    (concentration_value : Word) (reply : List Byte)
    (hs : zero_setting_switch.val = 0 ∨ zero_setting_switch.val = 2)
    (hp : 1 ≤ period.val ∧ period.val ≤ 15)
    (hc : 400 ≤ concentration_value.val ∧ concentration_value.val ≤ 1499) :
    (auto_zero_setting self zero_setting_switch period concentration_value reply).self._buffer
      = filled 8 0 reply self._buffer := by
  unfold auto_zero_setting
  rw [if_neg (by omega), if_neg (by omega), if_neg (by omega)]
  simp only [TwoWire.requestFrom, receive_eq 8 (by decide) reply 0 _ (by decide)]
  split_ifs <;> rfl

theorem auto_zero_setting_port (self : CM1106_I2C) (zero_setting_switch period : Byte)
    (concentration_value : Word) (reply : List Byte)
    (hs : zero_setting_switch.val = 0 ∨ zero_setting_switch.val = 2)
    (hp : 1 ≤ period.val ∧ period.val ≤ 15)
    (hc : 400 ≤ concentration_value.val ∧ concentration_value.val ≤ 1499) :
    (auto_zero_setting self zero_setting_switch period concentration_value reply).self._i2cPort
      = ⟨self._i2cPort.log ++
          [WireEvent.beginTransmission 0x31, WireEvent.write 0x10, WireEvent.write 100,
           WireEvent.write zero_setting_switch.val, WireEvent.write period.val,
           WireEvent.write (concentration_value.val / 256),
           WireEvent.write (concentration_value.val % 256), WireEvent.write 100,
           WireEvent.endTransmission, WireEvent.requestFrom 0x31 8], reply.drop 8⟩ := by
  unfold auto_zero_setting
  rw [if_neg (by omega), if_neg (by omega), if_neg (by omega)]
  simp only [TwoWire.requestFrom, receive_eq 8 (by decide) reply 0 _ (by decide),
    TwoWire.beginTransmission, TwoWire.write, TwoWire.endTransmission,
    CM1106_I2C_ADDRESS, CM1106_I2C_CMD_AUTO_ZERO_SETTING, low_byte_eq,
    high_byte_eq concentration_value.val concentration_value.isLt, Nat.sub_zero]
  split_ifs <;> simp only [List.append_assoc, List.cons_append, List.nil_append]

theorem calibration_buffer (self : CM1106_I2C) (adjust_value : Word) (reply : List Byte)
    (ha : 400 ≤ adjust_value.val ∧ adjust_value.val ≤ 1500) :
    (calibration self adjust_value reply).self._buffer = filled 4 0 reply self._buffer := by
  unfold calibration
  rw [if_neg (by omega)]
  simp only [TwoWire.requestFrom, receive_eq 4 (by decide) reply 0 _ (by decide)]
  split_ifs <;> rfl

theorem calibration_port (self : CM1106_I2C) (adjust_value : Word) (reply : List Byte)
    (ha : 400 ≤ adjust_value.val ∧ adjust_value.val ≤ 1500) :
    (calibration self adjust_value reply).self._i2cPort
      = ⟨self._i2cPort.log ++
          [WireEvent.beginTransmission 0x31, WireEvent.write 0x03,
           WireEvent.write (adjust_value.val / 256), WireEvent.write (adjust_value.val % 256),
           WireEvent.endTransmission, WireEvent.requestFrom 0x31 4], reply.drop 4⟩ := by
  unfold calibration
  rw [if_neg (by omega)]
  simp only [TwoWire.requestFrom, receive_eq 4 (by decide) reply 0 _ (by decide),
    TwoWire.beginTransmission, TwoWire.write, TwoWire.endTransmission,
    CM1106_I2C_ADDRESS, CM1106_I2C_CMD_CALIBRATION, low_byte_eq,
    high_byte_eq adjust_value.val adjust_value.isLt, Nat.sub_zero]
  split_ifs <;> simp only [List.append_assoc, List.cons_append, List.nil_append]

/-- C11: for every `adjust_value` in [400, 1500], every session state and every reply,
`calibration` adds to the port exactly one transmission to address 0x31 carrying the 3 bytes
`0x03, hi, lo`, where `(hi, lo)` is the big-endian encoding of `adjust_value` (both are bytes
and decoding `256 * hi + lo` gives `adjust_value` back), and then one request for exactly
4 bytes. -/
theorem calibration_request (self : CM1106_I2C) (adjust_value : Word) (reply : List Byte)
    (ha : 400 ≤ adjust_value.val ∧ adjust_value.val ≤ 1500) :
    (calibration self adjust_value reply).self._i2cPort.log
      = self._i2cPort.log ++
        [WireEvent.beginTransmission 0x31,
         WireEvent.write 0x03,
         WireEvent.write (adjust_value.val / 256),
         WireEvent.write (adjust_value.val % 256),
         WireEvent.endTransmission,
         WireEvent.requestFrom 0x31 4] ∧
    adjust_value.val / 256 < 256 ∧ adjust_value.val % 256 < 256 ∧
    256 * (adjust_value.val / 256) + adjust_value.val % 256 = adjust_value.val := by
  refine ⟨?_, by omega, by omega, by omega⟩
  rw [calibration_port self adjust_value reply ha]

theorem calibration_request_witness :
    (calibration session1 1500 [0x03, 0x05, 0xDC, 0x1C]).self._i2cPort.log
      = session1._i2cPort.log ++
        [WireEvent.beginTransmission 0x31,
         WireEvent.write 0x03,
         WireEvent.write 5,
         WireEvent.write 220,
         WireEvent.endTransmission,
         WireEvent.requestFrom 0x31 4] :=
  (calibration_request session1 1500 [0x03, 0x05, 0xDC, 0x1C] ⟨by decide, by decide⟩).1

theorem read_serial_number_serial (self : CM1106_I2C) (reply : List Byte) :
    (read_serial_number self reply).serial
      = if (read_serial_number self reply).ret = none then
          [SerialItem.str "Serial number >>", SerialItem.ln,
           SerialItem.hex (reply.getD 1 0) (reply.getD 2 0), SerialItem.str "\t",
           SerialItem.hex (reply.getD 3 0) (reply.getD 4 0), SerialItem.str "\t",
           SerialItem.hex (reply.getD 5 0) (reply.getD 6 0), SerialItem.str "\t",
           SerialItem.hex (reply.getD 7 0) (reply.getD 8 0), SerialItem.str "\t",
           SerialItem.hex (reply.getD 9 0) (reply.getD 10 0), SerialItem.ln]
        else [] := by
  unfold read_serial_number
  simp only [TwoWire.requestFrom, receive_eq 12 (by decide) reply 0 _ (by decide), Nat.zero_add]
  by_cases h : reply.length < 12
  · have hm : min 12 reply.length < 12 := by omega
    simp only [if_pos hm]
    rw [if_neg (by decide)]
  · have hm : ¬ min 12 reply.length < 12 := by omega
    have l1 := load_filled 12 (by decide) reply self._buffer 1 (by decide) (by omega)
    have l2 := load_filled 12 (by decide) reply self._buffer 2 (by decide) (by omega)
    have l3 := load_filled 12 (by decide) reply self._buffer 3 (by decide) (by omega)
    have l4 := load_filled 12 (by decide) reply self._buffer 4 (by decide) (by omega)
    have l5 := load_filled 12 (by decide) reply self._buffer 5 (by decide) (by omega)
    have l6 := load_filled 12 (by decide) reply self._buffer 6 (by decide) (by omega)
    have l7 := load_filled 12 (by decide) reply self._buffer 7 (by decide) (by omega)
    have l8 := load_filled 12 (by decide) reply self._buffer 8 (by decide) (by omega)
    have l9 := load_filled 12 (by decide) reply self._buffer 9 (by decide) (by omega)
    have l10 := load_filled 12 (by decide) reply self._buffer 10 (by decide) (by omega)
    simp only [if_neg hm, l1, l2, l3, l4, l5, l6, l7, l8, l9, l10]
    by_cases h1 : (load (filled 12 0 reply self._buffer) 0).val
        ≠ CM1106_I2C_CMD_READ_SERIAL_NUMBER
    · simp only [if_pos h1]
      rw [if_neg (by decide)]
    · simp only [if_neg h1]
      by_cases h3 : (load (filled 12 0 reply self._buffer) 11).val
          ≠ check_code (filled 12 0 reply self._buffer) 11
      · simp only [if_pos h3]
        rw [if_neg (by decide)]
      · simp only [if_neg h3]
        rw [if_pos trivial]

/-- C14 (as stated, refuted): from a session whose `co2` is 0, the accepted reply
`[0x01, 0xFF, 0xFF, 0x00, 0x01]` leaves `co2 = 65535`, outside 0..5000. -/
theorem co2_can_leave_documented_range :
    session0.co2.val ≤ 5000 ∧
    (measure_result session0 [0x01, 0xFF, 0xFF, 0x00, 0x01]).ret = some 0 ∧
    (measure_result session0 [0x01, 0xFF, 0xFF, 0x00, 0x01]).self.co2.val = 65535 ∧
    ¬ (measure_result session0 [0x01, 0xFF, 0xFF, 0x00, 0x01]).self.co2.val ≤ 5000 := by
  decide

/-- C14 (amended): starting from a session whose `co2` is in 0..5000, after any
`measure_result` call, for every device reply, `co2` is in 0..65535; it is still in 0..5000
when the call returns a non-zero code (`co2` is then unchanged), and when it returns 0 `co2`
is `256 * b1 + b2`, hence in 0..5000 exactly when the device reported such a value. -/
theorem co2_range_after_measure (self : CM1106_I2C) (reply : List Byte)
    (h : self.co2.val ≤ 5000) :
    (measure_result self reply).self.co2.val ≤ 65535 ∧
    ((measure_result self reply).ret ≠ some 0 →
      (measure_result self reply).self.co2.val ≤ 5000) ∧
    ((measure_result self reply).ret = some 0 →
      (measure_result self reply).self.co2.val
        = 256 * (reply.getD 1 0).val + (reply.getD 2 0).val ∧
      ((measure_result self reply).self.co2.val ≤ 5000
        ↔ 256 * (reply.getD 1 0).val + (reply.getD 2 0).val ≤ 5000)) := by
  refine ⟨by have := (measure_result self reply).self.co2.isLt; omega, ?_, ?_⟩
  · intro hret
    rcases measure_result_cached self reply with a | a
    · exact absurd a.1 hret
    · rw [a.2.1]
      exact h
  · intro hret
    rcases measure_result_cached self reply with a | a
    · exact ⟨a.2.1, by rw [a.2.1]⟩
    · exact absurd hret a.1

theorem co2_range_after_measure_witness :
    session1.co2.val ≤ 5000 ∧
    (measure_result session1 [0x01, 0x13, 0x88, 0x01, 0x63]).self.co2.val ≤ 65535 ∧
    (measure_result session1 [0x01, 0x13, 0x88, 0x01, 0x63]).ret = some 0 ∧
    (measure_result session1 [0x01, 0x13, 0x88, 0x01, 0x63]).self.co2.val
      = 256 * (([0x01, 0x13, 0x88, 0x01, 0x63] : List Byte).getD 1 0).val
        + (([0x01, 0x13, 0x88, 0x01, 0x63] : List Byte).getD 2 0).val :=
  ⟨by decide,
   (co2_range_after_measure session1 [0x01, 0x13, 0x88, 0x01, 0x63] (by decide)).1,
   by decide,
   ((co2_range_after_measure session1 [0x01, 0x13, 0x88, 0x01, 0x63] (by decide)).2.2
      (by decide)).1⟩

theorem checksum_spec_take (k : Nat) (reply : List Byte) :
    checksum_spec (reply.take k) = (256 - frameSum k reply % 256) % 256 :=
  rfl

theorem check_code_eq_spec (buf : Fin 32 → Byte) (k : Nat) :
    check_code buf k = checksum_spec ((List.range k).map (load buf)) := by
  induction k with
  | zero => simp [check_code, checksum_spec]
  | succ k ih =>
    rw [check_code_succ, ih]
    unfold checksum_spec
    rw [List.range_succ]
    simp only [List.map_append, List.map_cons, List.map_nil, List.sum_append, List.sum_cons,
      List.sum_nil, Nat.add_zero]
    have := (load buf k).isLt
    omega

/-! ## One byte of a reply replaced -/

theorem frameSum_cons (k : Nat) (a : Byte) (t : List Byte) :
    frameSum (k + 1) (a :: t) = a.val + frameSum k t := by
  simp [frameSum]

theorem frameSum_set_lt (v : Byte) (l : List Byte) :
    ∀ (i k : Nat), i < k → k ≤ l.length →
      frameSum k (l.set i v) + (l.getD i 0).val = frameSum k l + v.val := by
  induction l with
  | nil =>
    intro i k hi hk
    simp only [List.length_nil] at hk
    omega
  | cons a t ih =>
    intro i k hi hk
    cases k with
    | zero => omega
    | succ k =>
      cases i with
      | zero =>
        rw [List.set_cons_zero, frameSum_cons, frameSum_cons, List.getD_cons_zero]
        omega
      | succ i =>
        rw [List.set_cons_succ, frameSum_cons, frameSum_cons, List.getD_cons_succ]
        have := ih i k (by omega) (by simpa using hk)
        omega

theorem frameSum_set_ge (v : Byte) (l : List Byte) :
    ∀ (i k : Nat), k ≤ i → frameSum k (l.set i v) = frameSum k l := by
  induction l with
  | nil => intro i k _; rfl
  | cons a t ih =>
    intro i k hk
    cases k with
    | zero => simp [frameSum]
    | succ k =>
      cases i with
      | zero => omega
      | succ i =>
        rw [List.set_cons_succ, frameSum_cons, frameSum_cons, ih i k (by omega)]

theorem getD_set_self (v : Byte) (l : List Byte) (i : Nat) (h : i < l.length) :
    (l.set i v).getD i 0 = v := by
  rw [List.getD_eq_getElem _ _ (by rw [List.length_set]; exact h), List.getElem_set_self]

theorem getD_set_other (v : Byte) (l : List Byte) (i j : Nat) (h : i ≠ j) :
    (l.set i v).getD j 0 = l.getD j 0 := by
  simp only [List.getD_eq_getElem?_getD, List.getElem?_set_ne h]

/-! ## The receive loop and the bytes beyond the frame -/

theorem filled_apply (n : Nat) (reply : List Byte) (buf : Fin 32 → Byte) (i : Fin 32) :
    filled n 0 reply buf i
      = if i.val < n ∧ i.val < reply.length then reply.getD i.val 0 else buf i := by
  unfold filled
  simp only [Nat.sub_zero, Nat.zero_le, true_and]
  by_cases h1 : i.val < n
  · by_cases h2 : i.val < reply.length
    · rw [if_pos h1, if_pos ⟨h1, h2⟩, List.getD_eq_getElem _ _ h2, List.getD_eq_getElem _ _ h2]
    · rw [if_pos h1, if_neg (fun a => h2 a.2), List.getD_eq_default _ _ (by omega)]
  · rw [if_neg h1, if_neg (fun a => h1 a.1)]

theorem frame_ret_checksum_spec (n cmd : Nat) (reply : List Byte) (acc : Option Byte)
    (h : n ≤ reply.length) (hhdr : (reply.getD 0 0).val = cmd)
    (hcs : (reply.getD (n - 1) 0).val ≠ checksum_spec (reply.take (n - 1))) :
    frame_ret n cmd reply acc = some 3 := by
  rw [checksum_spec_take] at hcs
  unfold frame_ret
  rw [if_neg (by omega), if_neg (by omega), if_pos hcs]

/-- For `measure_result`, whose four paths all end in a `return` statement. -/
theorem frame_ret_zero_eq_two (n cmd : Nat) (reply : List Byte) (h : n ≤ reply.length) :
    frame_ret n cmd reply (some 0) = some 2 ↔ (reply.getD 0 0).val ≠ cmd := by
  unfold frame_ret
  rw [if_neg (by omega)]
  by_cases hh : (reply.getD 0 0).val ≠ cmd
  · rw [if_pos hh]
    exact ⟨fun _ => hh, fun _ => rfl⟩
  · rw [if_neg hh]
    split_ifs
    · exact ⟨fun e => absurd e (by decide), fun e => absurd e hh⟩
    · exact ⟨fun e => absurd e (by decide), fun e => absurd e hh⟩

/-- For `measure_result`, whose four paths all end in a `return` statement. -/
theorem frame_ret_zero_eq_three (n cmd : Nat) (reply : List Byte)
    (h : n ≤ reply.length) (hhdr : (reply.getD 0 0).val = cmd) :
    frame_ret n cmd reply (some 0) = some 3
      ↔ (reply.getD (n - 1) 0).val ≠ checksum_spec (reply.take (n - 1)) := by
  rw [checksum_spec_take]
  unfold frame_ret
  rw [if_neg (by omega), if_neg (by omega)]
  split_ifs with hc
  · exact ⟨fun _ => hc, fun _ => rfl⟩
  · exact ⟨fun e => absurd e (by decide), fun e => absurd e hc⟩

theorem frame_ret_zero_eq_zero (n cmd : Nat) (reply : List Byte) :
    frame_ret n cmd reply (some 0) = some 0 ↔
      n ≤ reply.length ∧ (reply.getD 0 0).val = cmd ∧
      (reply.getD (n - 1) 0).val = checksum_spec (reply.take (n - 1)) := by
  rw [checksum_spec_take]
  unfold frame_ret
  by_cases h1 : reply.length < n
  · rw [if_pos h1]
    exact ⟨fun e => absurd e (by decide), fun a => absurd a.1 (by omega)⟩
  · rw [if_neg h1]
    by_cases h2 : (reply.getD 0 0).val ≠ cmd
    · rw [if_pos h2]
      exact ⟨fun e => absurd e (by decide), fun a => absurd a.2.1 h2⟩
    · rw [if_neg h2]
      by_cases h3 : (reply.getD (n - 1) 0).val ≠ (256 - frameSum (n - 1) reply % 256) % 256
      · rw [if_pos h3]
        exact ⟨fun e => absurd e (by decide), fun a => absurd a.2.2 h3⟩
      · rw [if_neg h3]
        exact ⟨fun _ => ⟨by omega, not_not.mp h2, not_not.mp h3⟩, fun _ => rfl⟩

theorem checks_pass_filled (n cmd : Nat) (reply : List Byte) (buf : Fin 32 → Byte)
    (h1 : 1 ≤ n) (h2 : n ≤ 32) (hlen : n ≤ reply.length) :
    checks_pass n cmd (filled n 0 reply buf) ↔
      (reply.getD 0 0).val = cmd ∧
      (reply.getD (n - 1) 0).val = checksum_spec (reply.take (n - 1)) := by
  unfold checks_pass
  rw [load_filled n h2 reply buf 0 (by omega) (by omega),
    load_filled n h2 reply buf (n - 1) (by omega) (by omega),
    check_code_filled n h2 reply buf (n - 1) (by omega) (by omega), checksum_spec_take]

/-- C12: every bus transaction is addressed to device 0x31 and starts with the command byte
of the command, and the byte checked as the reply header is that same command byte.
`measure_result` sends exactly `[0x01]` and requests 5 bytes, `read_serial_number` exactly
`[0x1F]` and 12, `check_sw_version` exactly `[0x1E]` and 12; with parameters in range
`auto_zero_setting` starts with 0x10 and requests 8, `calibration` starts with 0x03 and
requests 4.  On a reply of at least `N` bytes, a first byte different from the command byte
that was sent makes the command return 2, and a first byte equal to it lets the frame through
to the checksum test (a wrong checksum byte then gives 3, not 2); `measure_result`, which
returns on every path, returns 2 exactly when the first byte differs from 0x01. -/
theorem bus_transactions (self : CM1106_I2C) (reply : List Byte)
    (zero_setting_switch period : Byte) (concentration_value adjust_value : Word) :
    (CM1106_I2C_ADDRESS = 0x31 ∧ CM1106_I2C_CMD_MEASURE_RESULT = 0x01 ∧
      CM1106_I2C_CMD_AUTO_ZERO_SETTING = 0x10 ∧ CM1106_I2C_CMD_CALIBRATION = 0x03 ∧
      CM1106_I2C_CMD_READ_SERIAL_NUMBER = 0x1F ∧ CM1106_I2C_CMD_CHECK_SW_VERSION = 0x1E) ∧
    ((measure_result self reply).self._i2cPort.log
        = self._i2cPort.log ++
          [WireEvent.beginTransmission 0x31, WireEvent.write 0x01,
           WireEvent.endTransmission, WireEvent.requestFrom 0x31 5] ∧
      (5 ≤ reply.length →
        ((measure_result self reply).ret = some 2 ↔ (reply.getD 0 0).val ≠ 0x01))) ∧
    ((read_serial_number self reply).self._i2cPort.log
        = self._i2cPort.log ++
          [WireEvent.beginTransmission 0x31, WireEvent.write 0x1F,
           WireEvent.endTransmission, WireEvent.requestFrom 0x31 12] ∧
      (12 ≤ reply.length → (reply.getD 0 0).val ≠ 0x1F →
        (read_serial_number self reply).ret = some 2) ∧
      (12 ≤ reply.length → (reply.getD 0 0).val = 0x1F →
        (reply.getD 11 0).val ≠ checksum_spec (reply.take 11) →
        (read_serial_number self reply).ret = some 3)) ∧
    ((check_sw_version self reply).self._i2cPort.log
        = self._i2cPort.log ++
          [WireEvent.beginTransmission 0x31, WireEvent.write 0x1E,
           WireEvent.endTransmission, WireEvent.requestFrom 0x31 12] ∧
      (12 ≤ reply.length → (reply.getD 0 0).val ≠ 0x1E →
        (check_sw_version self reply).ret = some 2) ∧
      (12 ≤ reply.length → (reply.getD 0 0).val = 0x1E →
        (reply.getD 11 0).val ≠ checksum_spec (reply.take 11) →
        (check_sw_version self reply).ret = some 3)) ∧
    ((zero_setting_switch.val = 0 ∨ zero_setting_switch.val = 2) →
      (1 ≤ period.val ∧ period.val ≤ 15) →
      (400 ≤ concentration_value.val ∧ concentration_value.val ≤ 1499) →
      (auto_zero_setting self zero_setting_switch period concentration_value
          reply).self._i2cPort.log
        = self._i2cPort.log ++
          [WireEvent.beginTransmission 0x31, WireEvent.write 0x10, WireEvent.write 100,
           WireEvent.write zero_setting_switch.val, WireEvent.write period.val,
           WireEvent.write (concentration_value.val / 256),
           WireEvent.write (concentration_value.val % 256), WireEvent.write 100,
           WireEvent.endTransmission, WireEvent.requestFrom 0x31 8] ∧
      (8 ≤ reply.length → (reply.getD 0 0).val ≠ 0x10 →
        (auto_zero_setting self zero_setting_switch period concentration_value reply).ret
          = some 2) ∧
      (8 ≤ reply.length → (reply.getD 0 0).val = 0x10 →
        (reply.getD 7 0).val ≠ checksum_spec (reply.take 7) →
        (auto_zero_setting self zero_setting_switch period concentration_value reply).ret
          = some 3)) ∧
    ((400 ≤ adjust_value.val ∧ adjust_value.val ≤ 1500) →
      (calibration self adjust_value reply).self._i2cPort.log
        = self._i2cPort.log ++
          [WireEvent.beginTransmission 0x31, WireEvent.write 0x03,
           WireEvent.write (adjust_value.val / 256), WireEvent.write (adjust_value.val % 256),
           WireEvent.endTransmission, WireEvent.requestFrom 0x31 4] ∧
      (4 ≤ reply.length → (reply.getD 0 0).val ≠ 0x03 →
        (calibration self adjust_value reply).ret = some 2) ∧
      (4 ≤ reply.length → (reply.getD 0 0).val = 0x03 →
        (reply.getD 3 0).val ≠ checksum_spec (reply.take 3) →
        (calibration self adjust_value reply).ret = some 3)) := by
  refine ⟨⟨rfl, rfl, rfl, rfl, rfl, rfl⟩, ⟨?_, ?_⟩, ⟨?_, ?_, ?_⟩, ⟨?_, ?_, ?_⟩, ?_, ?_⟩
  · rw [measure_result_port]
  · intro h
    rw [measure_result_ret]
    exact frame_ret_zero_eq_two 5 0x01 reply h
  · rw [read_serial_number_port]
  · intro h hh
    rw [read_serial_number_ret]
    exact frame_ret_header 12 0x1F reply _ h hh
  · intro h hh hc
    rw [read_serial_number_ret]
    exact frame_ret_checksum_spec 12 0x1F reply _ h hh hc
  · rw [check_sw_version_port]
  · intro h hh
    rw [check_sw_version_ret]
    exact frame_ret_header 12 0x1E reply _ h hh
  · intro h hh hc
    rw [check_sw_version_ret]
    exact frame_ret_checksum_spec 12 0x1E reply _ h hh hc
  · intro hs hp hc
    refine ⟨by rw [auto_zero_setting_port self _ _ _ reply hs hp hc], ?_, ?_⟩
    · intro h hh
      rw [auto_zero_setting_ret self _ _ _ reply hs hp hc]
      exact frame_ret_header 8 0x10 reply _ h hh
    · intro h hh hcs
      rw [auto_zero_setting_ret self _ _ _ reply hs hp hc]
      exact frame_ret_checksum_spec 8 0x10 reply _ h hh hcs
  · intro ha
    refine ⟨by rw [calibration_port self _ reply ha], ?_, ?_⟩
    · intro h hh
      rw [calibration_ret self _ reply ha]
      exact frame_ret_header 4 0x03 reply _ h hh
    · intro h hh hcs
      rw [calibration_ret self _ reply ha]
      exact frame_ret_checksum_spec 4 0x03 reply _ h hh hcs

theorem bus_transactions_witness :
    ((measure_result session0 [0x1F, 0, 1, 0, 2]).ret = some 2 ↔
      (([0x1F, 0, 1, 0, 2] : List Byte).getD 0 0).val ≠ 0x01) ∧
    (read_serial_number session0 [0x1E, 0, 1, 0, 2, 0, 3, 0, 4, 0, 5, 0xD3]).ret = some 2 ∧
    (read_serial_number session0 [0x1F, 0, 1, 0, 2, 0, 3, 0, 4, 0, 5, 0x00]).ret = some 3 ∧
    (check_sw_version session0 [0x1F, 0, 1, 0, 2, 0, 3, 0, 4, 0, 5, 0xD2]).ret = some 2 ∧
    (check_sw_version session0 [0x1E, 0x31, 0x2E, 0x30, 0, 0, 0, 0, 0, 0, 0, 0x00]).ret
      = some 3 ∧
    ((auto_zero_setting session0 2 7 1000 [0x10, 100, 2, 7, 0x03, 0xE8, 100, 0x38]).self._i2cPort.log
        = session0._i2cPort.log ++
          [WireEvent.beginTransmission 0x31, WireEvent.write 0x10, WireEvent.write 100,
           WireEvent.write 2, WireEvent.write 7, WireEvent.write 3, WireEvent.write 232,
           WireEvent.write 100, WireEvent.endTransmission, WireEvent.requestFrom 0x31 8]) ∧
    (auto_zero_setting session0 2 7 1000 [0x03, 100, 2, 7, 0x03, 0xE8, 100, 0x45]).ret
      = some 2 ∧
    (auto_zero_setting session0 2 7 1000 [0x10, 100, 2, 7, 0x03, 0xE8, 100, 0x00]).ret
      = some 3 ∧
    (calibration session0 400 [0x01, 0x01, 0x90, 0x01]).ret = some 2 ∧
    (calibration session0 400 [0x03, 0x01, 0x90, 0x00]).ret = some 3 :=
  ⟨(bus_transactions session0 [0x1F, 0, 1, 0, 2] 0 1 400 400).2.1.2 (by decide),
   (bus_transactions session0 [0x1E, 0, 1, 0, 2, 0, 3, 0, 4, 0, 5, 0xD3] 0 1 400 400).2.2.1.2.1
      (by decide) (by decide),
   (bus_transactions session0 [0x1F, 0, 1, 0, 2, 0, 3, 0, 4, 0, 5, 0x00] 0 1 400 400).2.2.1.2.2
      (by decide) (by decide) (by decide),
   (bus_transactions session0 [0x1F, 0, 1, 0, 2, 0, 3, 0, 4, 0, 5, 0xD2]
      0 1 400 400).2.2.2.1.2.1 (by decide) (by decide),
   (bus_transactions session0 [0x1E, 0x31, 0x2E, 0x30, 0, 0, 0, 0, 0, 0, 0, 0x00]
      0 1 400 400).2.2.2.1.2.2 (by decide) (by decide) (by decide),
   ((bus_transactions session0 [0x10, 100, 2, 7, 0x03, 0xE8, 100, 0x38] 2 7 1000 400).2.2.2.2.1
      (by decide) (by decide) (by decide)).1,
   ((bus_transactions session0 [0x03, 100, 2, 7, 0x03, 0xE8, 100, 0x45] 2 7 1000 400).2.2.2.2.1
      (by decide) (by decide) (by decide)).2.1 (by decide) (by decide),
   ((bus_transactions session0 [0x10, 100, 2, 7, 0x03, 0xE8, 100, 0x00] 2 7 1000 400).2.2.2.2.1
      (by decide) (by decide) (by decide)).2.2 (by decide) (by decide) (by decide),
   ((bus_transactions session0 [0x01, 0x01, 0x90, 0x01] 0 1 400 400).2.2.2.2.2
      ⟨by decide, by decide⟩).2.1 (by decide) (by decide),
   ((bus_transactions session0 [0x03, 0x01, 0x90, 0x00] 0 1 400 400).2.2.2.2.2
      ⟨by decide, by decide⟩).2.2 (by decide) (by decide) (by decide)⟩

/-- C16: the check code computed by the validation loops (an 8-bit accumulator starting at 0
from which each of the first `k` buffer bytes is subtracted with wrap-around) equals the
reference `(256 - ((sum of those k bytes) mod 256)) mod 256`, for every `k` (4, 3, 7, 11 in
the commands) and every byte sequence; and each of the five commands applies it to bytes
`0 .. N - 2` of the reply and compares it with byte `N - 1`: on a reply of at least `N` bytes
the two operands of the comparison, as found in the buffer the command leaves, are the
reference checksum of reply bytes `0 .. N - 2` and reply byte `N - 1`, and with the right
header a difference between them makes the command return 3 (for `measure_result`, which
returns on every path, 3 is returned exactly then). -/
theorem check_code_refines_checksum_spec (self : CM1106_I2C) (reply : List Byte)
    (zero_setting_switch period : Byte) (concentration_value adjust_value : Word) :
    (∀ (buf : Fin 32 → Byte) (k : Nat),
      check_code buf k = checksum_spec ((List.range k).map (load buf))) ∧
    (∀ (bytes : List Byte) (buf : Fin 32 → Byte), bytes.length ≤ 32 →
      check_code (filled bytes.length 0 bytes buf) bytes.length = checksum_spec bytes) ∧
    (5 ≤ reply.length →
      check_code (measure_result self reply).self._buffer 4 = checksum_spec (reply.take 4) ∧
      load (measure_result self reply).self._buffer 4 = reply.getD 4 0 ∧
      ((reply.getD 0 0).val = 0x01 →
        ((measure_result self reply).ret = some 3
          ↔ (reply.getD 4 0).val ≠ checksum_spec (reply.take 4)))) ∧
    ((zero_setting_switch.val = 0 ∨ zero_setting_switch.val = 2) →
      (1 ≤ period.val ∧ period.val ≤ 15) →
      (400 ≤ concentration_value.val ∧ concentration_value.val ≤ 1499) →
      8 ≤ reply.length →
      check_code (auto_zero_setting self zero_setting_switch period concentration_value
          reply).self._buffer 7 = checksum_spec (reply.take 7) ∧
      load (auto_zero_setting self zero_setting_switch period concentration_value
          reply).self._buffer 7 = reply.getD 7 0 ∧
      ((reply.getD 0 0).val = 0x10 → (reply.getD 7 0).val ≠ checksum_spec (reply.take 7) →
        (auto_zero_setting self zero_setting_switch period concentration_value reply).ret
          = some 3)) ∧
    ((400 ≤ adjust_value.val ∧ adjust_value.val ≤ 1500) →
      4 ≤ reply.length →
      check_code (calibration self adjust_value reply).self._buffer 3
        = checksum_spec (reply.take 3) ∧
      load (calibration self adjust_value reply).self._buffer 3 = reply.getD 3 0 ∧
      ((reply.getD 0 0).val = 0x03 → (reply.getD 3 0).val ≠ checksum_spec (reply.take 3) →
        (calibration self adjust_value reply).ret = some 3)) ∧
    (12 ≤ reply.length →
      check_code (read_serial_number self reply).self._buffer 11
        = checksum_spec (reply.take 11) ∧
      load (read_serial_number self reply).self._buffer 11 = reply.getD 11 0 ∧
      ((reply.getD 0 0).val = 0x1F → (reply.getD 11 0).val ≠ checksum_spec (reply.take 11) →
        (read_serial_number self reply).ret = some 3)) ∧
    (12 ≤ reply.length →
      check_code (check_sw_version self reply).self._buffer 11
        = checksum_spec (reply.take 11) ∧
      load (check_sw_version self reply).self._buffer 11 = reply.getD 11 0 ∧
      ((reply.getD 0 0).val = 0x1E → (reply.getD 11 0).val ≠ checksum_spec (reply.take 11) →
        (check_sw_version self reply).ret = some 3)) := by
  refine ⟨check_code_eq_spec, ?_, ?_, ?_, ?_, ?_, ?_⟩
  · intro bytes buf hb
    rw [check_code_filled bytes.length hb bytes buf bytes.length (Nat.le_refl _) (Nat.le_refl _)]
    unfold checksum_spec frameSum
    rw [List.take_length]
  · intro h
    refine ⟨?_, ?_, ?_⟩
    · rw [measure_result_buffer, check_code_filled 5 (by decide) reply _ 4 (by decide) (by omega),
        checksum_spec_take]
    · rw [measure_result_buffer, load_filled 5 (by decide) reply _ 4 (by decide) (by omega)]
    · intro hhdr
      rw [measure_result_ret]
      exact frame_ret_zero_eq_three 5 0x01 reply h hhdr
  · intro hs hp hc h
    refine ⟨?_, ?_, ?_⟩
    · rw [auto_zero_setting_buffer self _ _ _ reply hs hp hc,
        check_code_filled 8 (by decide) reply _ 7 (by decide) (by omega), checksum_spec_take]
    · rw [auto_zero_setting_buffer self _ _ _ reply hs hp hc,
        load_filled 8 (by decide) reply _ 7 (by decide) (by omega)]
    · intro hhdr hcs
      rw [auto_zero_setting_ret self _ _ _ reply hs hp hc]
      exact frame_ret_checksum_spec 8 0x10 reply _ h hhdr hcs
  · intro ha h
    refine ⟨?_, ?_, ?_⟩
    · rw [calibration_buffer self _ reply ha,
        check_code_filled 4 (by decide) reply _ 3 (by decide) (by omega), checksum_spec_take]
    · rw [calibration_buffer self _ reply ha,
        load_filled 4 (by decide) reply _ 3 (by decide) (by omega)]
    · intro hhdr hcs
      rw [calibration_ret self _ reply ha]
      exact frame_ret_checksum_spec 4 0x03 reply _ h hhdr hcs
  · intro h
    refine ⟨?_, ?_, ?_⟩
    · rw [read_serial_number_buffer,
        check_code_filled 12 (by decide) reply _ 11 (by decide) (by omega), checksum_spec_take]
    · rw [read_serial_number_buffer,
        load_filled 12 (by decide) reply _ 11 (by decide) (by omega)]
    · intro hhdr hcs
      rw [read_serial_number_ret]
      exact frame_ret_checksum_spec 12 0x1F reply _ h hhdr hcs
  · intro h
    refine ⟨?_, ?_, ?_⟩
    · rw [check_sw_version_buffer,
        check_code_filled 12 (by decide) reply _ 11 (by decide) (by omega), checksum_spec_take]
    · rw [check_sw_version_buffer,
        load_filled 12 (by decide) reply _ 11 (by decide) (by omega)]
    · intro hhdr hcs
      rw [check_sw_version_ret]
      exact frame_ret_checksum_spec 12 0x1E reply _ h hhdr hcs

theorem check_code_refines_checksum_spec_witness :
    (check_code (filled 4 0 [0x01, 0x01, 0x90, 0x01] session0._buffer) 4
      = checksum_spec [0x01, 0x01, 0x90, 0x01]) ∧
    ((measure_result session0 [0x01, 0x01, 0x90, 0x01, 0xCC]).ret = some 3
      ↔ (([0x01, 0x01, 0x90, 0x01, 0xCC] : List Byte).getD 4 0).val
          ≠ checksum_spec (([0x01, 0x01, 0x90, 0x01, 0xCC] : List Byte).take 4)) ∧
    (check_code (auto_zero_setting session0 0 1 400
        [0x10, 100, 0, 1, 0x01, 0x90, 100, 0x00]).self._buffer 7
      = checksum_spec (([0x10, 100, 0, 1, 0x01, 0x90, 100, 0x00] : List Byte).take 7)) ∧
    (auto_zero_setting session0 0 1 400 [0x10, 100, 0, 1, 0x01, 0x90, 100, 0x00]).ret
      = some 3 ∧
    (calibration session0 400 [0x03, 0x01, 0x90, 0x00]).ret = some 3 ∧
    (read_serial_number session0 [0x1F, 0, 1, 0, 2, 0, 3, 0, 4, 0, 5, 0x00]).ret = some 3 ∧
    (check_sw_version session0 [0x1E, 0x31, 0x2E, 0x30, 0, 0, 0, 0, 0, 0, 0, 0x00]).ret
      = some 3 :=
  ⟨(check_code_refines_checksum_spec session0 [] 0 1 400 400).2.1
      [0x01, 0x01, 0x90, 0x01] session0._buffer (by decide),
   ((check_code_refines_checksum_spec session0 [0x01, 0x01, 0x90, 0x01, 0xCC]
      0 1 400 400).2.2.1 (by decide)).2.2 (by decide),
   ((check_code_refines_checksum_spec session0 [0x10, 100, 0, 1, 0x01, 0x90, 100, 0x00]
      0 1 400 400).2.2.2.1 (by decide) (by decide) (by decide) (by decide)).1,
   ((check_code_refines_checksum_spec session0 [0x10, 100, 0, 1, 0x01, 0x90, 100, 0x00]
      0 1 400 400).2.2.2.1 (by decide) (by decide) (by decide) (by decide)).2.2
      (by decide) (by decide),
   ((check_code_refines_checksum_spec session0 [0x03, 0x01, 0x90, 0x00]
      0 1 400 400).2.2.2.2.1 (by decide) (by decide)).2.2 (by decide) (by decide),
   ((check_code_refines_checksum_spec session0 [0x1F, 0, 1, 0, 2, 0, 3, 0, 4, 0, 5, 0x00]
      0 1 400 400).2.2.2.2.2.1 (by decide)).2.2 (by decide) (by decide),
   ((check_code_refines_checksum_spec session0
      [0x1E, 0x31, 0x2E, 0x30, 0, 0, 0, 0, 0, 0, 0, 0x00]
      0 1 400 400).2.2.2.2.2.2 (by decide)).2.2 (by decide) (by decide)⟩

theorem frame_ret_corrupted (n cmd : Nat) (reply : List Byte) (acc : Option Byte)
    (i : Nat) (v : Byte) (hn : 2 ≤ n) (hlen : n ≤ reply.length)
    (hhdr : (reply.getD 0 0).val = cmd)
    (hcs : (reply.getD (n - 1) 0).val = checksum_spec (reply.take (n - 1)))
    (hi : i < n) (hv : v ≠ reply.getD i 0) :
    frame_ret n cmd (reply.set i v) acc = if i = 0 then some 2 else some 3 := by
  rw [checksum_spec_take] at hcs
  have hvn : v.val ≠ (reply.getD i 0).val := fun e => hv (Fin.ext e)
  have hvlt := v.isLt
  have holt := (reply.getD i 0).isLt
  unfold frame_ret
  rw [List.length_set, if_neg (by omega)]
  by_cases h0 : i = 0
  · subst h0
    rw [getD_set_self v reply 0 (by omega), if_pos (by omega), if_pos rfl]
  · rw [getD_set_other v reply i 0 h0, if_neg (by omega), if_neg h0]
    by_cases hl : i = n - 1
    · subst hl
      rw [getD_set_self v reply (n - 1) (by omega), frameSum_set_ge v reply (n - 1) (n - 1)
        (Nat.le_refl _), if_pos (by omega)]
    · have hs := frameSum_set_lt v reply i (n - 1) (by omega) (by omega)
      rw [getD_set_other v reply i (n - 1) hl, if_pos (by omega)]

theorem checksum_byte_iff_sum_zero (n : Nat) (reply : List Byte)
    (hn : 1 ≤ n) (hlen : n ≤ reply.length) :
    (reply.getD (n - 1) 0).val = checksum_spec (reply.take (n - 1))
      ↔ frameSum n reply % 256 = 0 := by
  rw [checksum_spec_take]
  have hs := frameSum_succ (n - 1) reply (by omega)
  have hn1 : n - 1 + 1 = n := by omega
  rw [hn1] at hs
  have hb := (reply.getD (n - 1) 0).isLt
  constructor
  · intro a
    omega
  · intro a
    omega

theorem corrupted_of_checks (n cmd : Nat) (reply : List Byte) (buf : Fin 32 → Byte)
    (acc : Option Byte) (i : Nat) (v : Byte) (hn : 2 ≤ n) (h32 : n ≤ 32)
    (hlen : n ≤ reply.length) (hpass : checks_pass n cmd (filled n 0 reply buf))
    (hi : i < n) (hv : v ≠ reply.getD i 0) :
    frame_ret n cmd (reply.set i v) acc = if i = 0 then some 2 else some 3 := by
  obtain ⟨hhdr, hcs⟩ := (checks_pass_filled n cmd reply buf (by omega) h32 hlen).mp hpass
  exact frame_ret_corrupted n cmd reply acc i v hn hlen hhdr hcs hi hv

theorem checks_iff_sum_zero (n cmd : Nat) (reply : List Byte) (buf : Fin 32 → Byte)
    (hn : 1 ≤ n) (h32 : n ≤ 32) (hlen : n ≤ reply.length)
    (hhdr : (reply.getD 0 0).val = cmd) :
    checks_pass n cmd (filled n 0 reply buf) ↔ frameSum n reply % 256 = 0 := by
  rw [checks_pass_filled n cmd reply buf hn h32 hlen,
    checksum_byte_iff_sum_zero n reply hn hlen]
  exact ⟨fun a => a.2, fun a => ⟨hhdr, a⟩⟩

/-- C18: single-byte corruption is always detected.  For each command with frame length `N`
(5, 8, 4, 12, 12; parameters in range where there are any): if a reply of at least `N` bytes
is accepted, that is, the header test and the checksum test of the command pass on the buffer
it leaves, then replacing one of the first `N` bytes of the reply, at index `i`, by a
different value `v` makes the command return 2 when `i = 0` and 3 when `i` is in
`1 .. N - 1`.  Equivalently, on a reply of at least `N` bytes with the right header the two
tests pass exactly when the sum of the first `N` bytes is 0 modulo 256.  For `measure_result`
the tests pass on a reply of at least 5 bytes exactly when it returns 0. -/
theorem single_byte_corruption_detected (self : CM1106_I2C) (reply : List Byte)
    (zero_setting_switch period : Byte) (concentration_value adjust_value : Word)
    (i : Nat) (v : Byte) :
    ((5 ≤ reply.length → checks_pass 5 0x01 (measure_result self reply).self._buffer →
        i < 5 → v ≠ reply.getD i 0 →
        (measure_result self (reply.set i v)).ret = if i = 0 then some 2 else some 3) ∧
      (5 ≤ reply.length → (reply.getD 0 0).val = 0x01 →
        (checks_pass 5 0x01 (measure_result self reply).self._buffer
          ↔ frameSum 5 reply % 256 = 0)) ∧
      ((measure_result self reply).ret = some 0 ↔
        5 ≤ reply.length ∧ checks_pass 5 0x01 (measure_result self reply).self._buffer)) ∧
    ((zero_setting_switch.val = 0 ∨ zero_setting_switch.val = 2) →
      (1 ≤ period.val ∧ period.val ≤ 15) →
      (400 ≤ concentration_value.val ∧ concentration_value.val ≤ 1499) →
      (8 ≤ reply.length →
        checks_pass 8 0x10 (auto_zero_setting self zero_setting_switch period
          concentration_value reply).self._buffer →
        i < 8 → v ≠ reply.getD i 0 →
        (auto_zero_setting self zero_setting_switch period concentration_value
            (reply.set i v)).ret = if i = 0 then some 2 else some 3) ∧
      (8 ≤ reply.length → (reply.getD 0 0).val = 0x10 →
        (checks_pass 8 0x10 (auto_zero_setting self zero_setting_switch period
            concentration_value reply).self._buffer
          ↔ frameSum 8 reply % 256 = 0))) ∧
    ((400 ≤ adjust_value.val ∧ adjust_value.val ≤ 1500) →
      (4 ≤ reply.length →
        checks_pass 4 0x03 (calibration self adjust_value reply).self._buffer →
        i < 4 → v ≠ reply.getD i 0 →
        (calibration self adjust_value (reply.set i v)).ret
          = if i = 0 then some 2 else some 3) ∧
      (4 ≤ reply.length → (reply.getD 0 0).val = 0x03 →
        (checks_pass 4 0x03 (calibration self adjust_value reply).self._buffer
          ↔ frameSum 4 reply % 256 = 0))) ∧
    ((12 ≤ reply.length →
        checks_pass 12 0x1F (read_serial_number self reply).self._buffer →
        i < 12 → v ≠ reply.getD i 0 →
        (read_serial_number self (reply.set i v)).ret = if i = 0 then some 2 else some 3) ∧
      (12 ≤ reply.length → (reply.getD 0 0).val = 0x1F →
        (checks_pass 12 0x1F (read_serial_number self reply).self._buffer
          ↔ frameSum 12 reply % 256 = 0))) ∧
    ((12 ≤ reply.length →
        checks_pass 12 0x1E (check_sw_version self reply).self._buffer →
        i < 12 → v ≠ reply.getD i 0 →
        (check_sw_version self (reply.set i v)).ret = if i = 0 then some 2 else some 3) ∧
      (12 ≤ reply.length → (reply.getD 0 0).val = 0x1E →
        (checks_pass 12 0x1E (check_sw_version self reply).self._buffer
          ↔ frameSum 12 reply % 256 = 0))) := by
  refine ⟨⟨?_, ?_, ?_⟩, ?_, ?_, ⟨?_, ?_⟩, ⟨?_, ?_⟩⟩
  · intro hlen hp hi hv
    rw [measure_result_buffer] at hp
    rw [measure_result_ret]
    exact corrupted_of_checks 5 0x01 reply _ _ i v (by decide) (by decide) hlen hp hi hv
  · intro hlen hhdr
    rw [measure_result_buffer]
    exact checks_iff_sum_zero 5 0x01 reply _ (by decide) (by decide) hlen hhdr
  · rw [measure_result_ret, measure_result_buffer, frame_ret_zero_eq_zero]
    constructor
    · intro a
      exact ⟨a.1, (checks_pass_filled 5 0x01 reply _ (by decide) (by decide) a.1).mpr a.2⟩
    · intro a
      exact ⟨a.1, (checks_pass_filled 5 0x01 reply _ (by decide) (by decide) a.1).mp a.2⟩
  · intro hs hp hc
    refine ⟨?_, ?_⟩
    · intro hlen hpass hi hv
      rw [auto_zero_setting_buffer self _ _ _ _ hs hp hc] at hpass
      rw [auto_zero_setting_ret self _ _ _ _ hs hp hc]
      exact corrupted_of_checks 8 0x10 reply _ _ i v (by decide) (by decide) hlen hpass hi hv
    · intro hlen hhdr
      rw [auto_zero_setting_buffer self _ _ _ _ hs hp hc]
      exact checks_iff_sum_zero 8 0x10 reply _ (by decide) (by decide) hlen hhdr
  · intro ha
    refine ⟨?_, ?_⟩
    · intro hlen hpass hi hv
      rw [calibration_buffer self _ _ ha] at hpass
      rw [calibration_ret self _ _ ha]
      exact corrupted_of_checks 4 0x03 reply _ _ i v (by decide) (by decide) hlen hpass hi hv
    · intro hlen hhdr
      rw [calibration_buffer self _ _ ha]
      exact checks_iff_sum_zero 4 0x03 reply _ (by decide) (by decide) hlen hhdr
  · intro hlen hpass hi hv
    rw [read_serial_number_buffer] at hpass
    rw [read_serial_number_ret]
    exact corrupted_of_checks 12 0x1F reply _ _ i v (by decide) (by decide) hlen hpass hi hv
  · intro hlen hhdr
    rw [read_serial_number_buffer]
    exact checks_iff_sum_zero 12 0x1F reply _ (by decide) (by decide) hlen hhdr
  · intro hlen hpass hi hv
    rw [check_sw_version_buffer] at hpass
    rw [check_sw_version_ret]
    exact corrupted_of_checks 12 0x1E reply _ _ i v (by decide) (by decide) hlen hpass hi hv
  · intro hlen hhdr
    rw [check_sw_version_buffer]
    exact checks_iff_sum_zero 12 0x1E reply _ (by decide) (by decide) hlen hhdr

theorem single_byte_corruption_detected_witness :
    (measure_result session0 [0x01, 0x01, 0x91, 0x01, 0x6D]).ret = some 3 ∧
    (measure_result session0 [0x81, 0x01, 0x90, 0x01, 0x6D]).ret = some 2 ∧
    (auto_zero_setting session0 0 1 400 [0x10, 100, 0, 1, 0x01, 0x90, 100, 0x97]).ret
      = some 3 ∧
    (calibration session0 400 [0x03, 0x00, 0x90, 0x6C]).ret = some 3 ∧
    (read_serial_number session0 [0x1F, 0, 1, 0, 2, 0, 3, 0, 4, 0, 4, 0xD2]).ret = some 3 ∧
    (check_sw_version session0 [0x1F, 0x31, 0x2E, 0x30, 0, 0, 0, 0, 0, 0, 0, 0x53]).ret
      = some 2 ∧
    (checks_pass 4 0x03 (calibration session0 400 [0x03, 0x01, 0x90, 0x6C]).self._buffer
      ↔ frameSum 4 [0x03, 0x01, 0x90, 0x6C] % 256 = 0) :=
  ⟨(single_byte_corruption_detected session0 [0x01, 0x01, 0x90, 0x01, 0x6D]
      0 1 400 400 2 0x91).1.1 (by decide) (by unfold checks_pass; decide)
      (by decide) (by decide),
   (single_byte_corruption_detected session0 [0x01, 0x01, 0x90, 0x01, 0x6D]
      0 1 400 400 0 0x81).1.1 (by decide) (by unfold checks_pass; decide)
      (by decide) (by decide),
   ((single_byte_corruption_detected session0 [0x10, 100, 0, 1, 0x01, 0x90, 100, 0x96]
      0 1 400 400 7 0x97).2.1 (by decide) (by decide) (by decide)).1
      (by decide) (by unfold checks_pass; decide) (by decide) (by decide),
   ((single_byte_corruption_detected session0 [0x03, 0x01, 0x90, 0x6C]
      0 1 400 400 1 0x00).2.2.1 ⟨by decide, by decide⟩).1
      (by decide) (by unfold checks_pass; decide) (by decide) (by decide),
   (single_byte_corruption_detected session0 [0x1F, 0, 1, 0, 2, 0, 3, 0, 4, 0, 5, 0xD2]
      0 1 400 400 10 0x04).2.2.2.1.1 (by decide) (by unfold checks_pass; decide)
      (by decide) (by decide),
   (single_byte_corruption_detected session0
      [0x1E, 0x31, 0x2E, 0x30, 0, 0, 0, 0, 0, 0, 0, 0x53]
      0 1 400 400 0 0x1F).2.2.2.2.1 (by decide) (by unfold checks_pass; decide)
      (by decide) (by decide),
   ((single_byte_corruption_detected session0 [0x03, 0x01, 0x90, 0x6C]
      0 1 400 400 0 0).2.2.1 ⟨by decide, by decide⟩).2 (by decide) (by decide)⟩

/-! ## The paths that end without a `return` statement, and the printed `int` -/

theorem returned_of_none (o : Outcome) (g : Byte) (h : o.ret = none) : o.returned g = g := by
  unfold Outcome.returned
  rw [h]

theorem returned_of_some (o : Outcome) (g c : Byte) (h : o.ret = some c) :
    o.returned g = c := by
  unfold Outcome.returned
  rw [h]

/-- The three parameter tests of `auto_zero_setting`, in the order of the source. -/
theorem auto_zero_setting_rejects_in_order (self : CM1106_I2C)
    (zero_setting_switch period : Byte) (concentration_value : Word) (reply : List Byte) :
    ((zero_setting_switch.val ≠ 0 ∧ zero_setting_switch.val ≠ 2) →
      (auto_zero_setting self zero_setting_switch period concentration_value reply).ret
        = some 4) ∧
    ((zero_setting_switch.val = 0 ∨ zero_setting_switch.val = 2) →
      (period.val < 1 ∨ 15 < period.val) →
      (auto_zero_setting self zero_setting_switch period concentration_value reply).ret
        = some 5) ∧
    ((zero_setting_switch.val = 0 ∨ zero_setting_switch.val = 2) →
      (1 ≤ period.val ∧ period.val ≤ 15) →
      (concentration_value.val < 400 ∨ 1499 < concentration_value.val) →
      (auto_zero_setting self zero_setting_switch period concentration_value reply).ret
        = some 6) := by
  refine ⟨?_, ?_, ?_⟩
  · intro hs
    unfold auto_zero_setting
    rw [if_pos hs]
  · intro hs hp
    unfold auto_zero_setting
    rw [if_neg (by omega), if_pos hp]
  · intro hs hp hc
    unfold auto_zero_setting
    rw [if_neg (by omega), if_neg (by omega), if_pos hc]

/-- The parameter test of `calibration`. -/
theorem calibration_rejects (self : CM1106_I2C) (adjust_value : Word) (reply : List Byte)
    (ha : adjust_value.val < 400 ∨ 1500 < adjust_value.val) :
    (calibration self adjust_value reply).ret = some 4 := by
  unfold calibration
  rw [if_pos ha]

/-- C5 (the code at an input where it departs from the claim): with the three arguments in
range and a frame that passes the checks, `auto_zero_setting` reaches its closing brace
without a `return` statement, so the byte the caller reads is the indeterminate one, whatever
it is: 4, 5 and 6 are not excluded. -/
theorem auto_zero_setting_in_range_indeterminate (self : CM1106_I2C) (g : Byte) :
    (auto_zero_setting self 0 1 400 [0x10, 100, 0, 1, 0x01, 0x90, 100, 0x96]).ret = none ∧
    (auto_zero_setting self 0 1 400 [0x10, 100, 0, 1, 0x01, 0x90, 100, 0x96]).returned g
      = g ∧
    (auto_zero_setting self 0 1 400 [0x10, 100, 0, 1, 0x01, 0x90, 100, 0x96]).returned 4
      = 4 ∧
    (auto_zero_setting self 0 1 400 [0x10, 100, 0, 1, 0x01, 0x90, 100, 0x96]).returned 5
      = 5 ∧
    (auto_zero_setting self 0 1 400 [0x10, 100, 0, 1, 0x01, 0x90, 100, 0x96]).returned 6
      = 6 := by
  have h : (auto_zero_setting self 0 1 400
      [0x10, 100, 0, 1, 0x01, 0x90, 100, 0x96]).ret = none := by
    rw [auto_zero_setting_ret self _ _ _ _ (by decide) (by decide) (by decide)]
    decide
  exact ⟨h, returned_of_none _ g h, returned_of_none _ 4 h, returned_of_none _ 5 h,
    returned_of_none _ 6 h⟩

/-- C6 (the code at inputs where it departs from the claim): with `adjust_value` in range
(400, 1000 and 1500 here) and a frame that passes the checks, `calibration` reaches its
closing brace without a `return` statement, so the byte the caller reads is the indeterminate
one, whatever it is: 4 is not excluded. -/
theorem calibration_in_range_indeterminate (self : CM1106_I2C) (g : Byte) :
    ((calibration self 400 [0x03, 0x01, 0x90, 0x6C]).ret = none ∧
      (calibration self 400 [0x03, 0x01, 0x90, 0x6C]).returned g = g ∧
      (calibration self 400 [0x03, 0x01, 0x90, 0x6C]).returned 4 = 4) ∧
    ((calibration self 1000 [0x03, 0x03, 0xE8, 0x12]).ret = none ∧
      (calibration self 1000 [0x03, 0x03, 0xE8, 0x12]).returned 4 = 4) ∧
    ((calibration self 1500 [0x03, 0x05, 0xDC, 0x1C]).ret = none ∧
      (calibration self 1500 [0x03, 0x05, 0xDC, 0x1C]).returned 4 = 4) := by
  have h1 : (calibration self 400 [0x03, 0x01, 0x90, 0x6C]).ret = none := by
    rw [calibration_ret self _ _ (by decide)]
    decide
  have h2 : (calibration self 1000 [0x03, 0x03, 0xE8, 0x12]).ret = none := by
    rw [calibration_ret self _ _ (by decide)]
    decide
  have h3 : (calibration self 1500 [0x03, 0x05, 0xDC, 0x1C]).ret = none := by
    rw [calibration_ret self _ _ (by decide)]
    decide
  exact ⟨⟨h1, returned_of_none _ g h1, returned_of_none _ 4 h1⟩,
    ⟨h2, returned_of_none _ 4 h2⟩, ⟨h3, returned_of_none _ 4 h3⟩⟩

/-- C17 (the code at inputs where it departs from the claim): with arguments in range and a
frame that passes the checks, `calibration` and `auto_zero_setting` have written their
request to the port, requested and consumed the reply and overwritten the buffer, and then
reach their closing brace without a `return` statement; the byte the caller reads is the
indeterminate one, so a caller reading 4 (or 5, 6) cannot conclude that nothing was sent. -/
theorem bus_activity_then_indeterminate_return (self : CM1106_I2C) :
    ((calibration self 400 [0x03, 0x01, 0x90, 0x6C]).ret = none ∧
      (calibration self 400 [0x03, 0x01, 0x90, 0x6C]).returned 4 = 4 ∧
      (calibration self 400 [0x03, 0x01, 0x90, 0x6C]).self._i2cPort.log
        = self._i2cPort.log ++
          [WireEvent.beginTransmission 0x31, WireEvent.write 0x03, WireEvent.write 1,
           WireEvent.write 144, WireEvent.endTransmission, WireEvent.requestFrom 0x31 4] ∧
      (calibration self 400 [0x03, 0x01, 0x90, 0x6C]).self._i2cPort.rx = [] ∧
      (calibration self 400 [0x03, 0x01, 0x90, 0x6C]).self._buffer 3 = 0x6C) ∧
    ((auto_zero_setting self 0 1 400 [0x10, 100, 0, 1, 0x01, 0x90, 100, 0x96]).ret = none ∧
      (auto_zero_setting self 0 1 400 [0x10, 100, 0, 1, 0x01, 0x90, 100, 0x96]).returned 4
        = 4 ∧
      (auto_zero_setting self 0 1 400 [0x10, 100, 0, 1, 0x01, 0x90, 100, 0x96]).returned 5
        = 5 ∧
      (auto_zero_setting self 0 1 400 [0x10, 100, 0, 1, 0x01, 0x90, 100, 0x96]).returned 6
        = 6 ∧
      (auto_zero_setting self 0 1 400
          [0x10, 100, 0, 1, 0x01, 0x90, 100, 0x96]).self._i2cPort.log
        = self._i2cPort.log ++
          [WireEvent.beginTransmission 0x31, WireEvent.write 0x10, WireEvent.write 100,
           WireEvent.write 0, WireEvent.write 1, WireEvent.write 1, WireEvent.write 144,
           WireEvent.write 100, WireEvent.endTransmission, WireEvent.requestFrom 0x31 8] ∧
      (auto_zero_setting self 0 1 400
          [0x10, 100, 0, 1, 0x01, 0x90, 100, 0x96]).self._i2cPort.rx = [] ∧
      (auto_zero_setting self 0 1 400
          [0x10, 100, 0, 1, 0x01, 0x90, 100, 0x96]).self._buffer 7 = 0x96) := by
  have h1 : (calibration self 400 [0x03, 0x01, 0x90, 0x6C]).ret = none := by
    rw [calibration_ret self _ _ (by decide)]
    decide
  have h2 : (auto_zero_setting self 0 1 400
      [0x10, 100, 0, 1, 0x01, 0x90, 100, 0x96]).ret = none := by
    rw [auto_zero_setting_ret self _ _ _ _ (by decide) (by decide) (by decide)]
    decide
  refine ⟨⟨h1, returned_of_none _ 4 h1, ?_, ?_, ?_⟩,
    ⟨h2, returned_of_none _ 4 h2, returned_of_none _ 5 h2, returned_of_none _ 6 h2, ?_, ?_, ?_⟩⟩
  · rw [calibration_port self _ _ (by decide)]
    rfl
  · rw [calibration_port self _ _ (by decide)]
    rfl
  · rw [calibration_buffer self _ _ (by decide), filled_apply]
    rfl
  · rw [auto_zero_setting_port self _ _ _ _ (by decide) (by decide) (by decide)]
    rfl
  · rw [auto_zero_setting_port self _ _ _ _ (by decide) (by decide) (by decide)]
    rfl
  · rw [auto_zero_setting_buffer self _ _ _ _ (by decide) (by decide) (by decide), filled_apply]
    rfl

/-- On a target whose `int` has more than 16 bits the expression `(hi << 8) + lo` is the
16-bit word `256 * hi + lo`. -/
theorem shift_add_int_wide (int_bits : Nat) (hi lo : Byte) (h : 17 ≤ int_bits) :
    shift_add_int int_bits hi lo = ((256 * hi.val + lo.val : Nat) : Int) := by
  have h1 := hi.isLt
  have h2 := lo.isLt
  have hp : 2 ^ 16 ≤ 2 ^ (int_bits - 1) := Nat.pow_le_pow_right (by decide) (by omega)
  have hv : (hi.val <<< 8) + lo.val = 256 * hi.val + lo.val := by
    rw [Nat.shiftLeft_eq]
    omega
  unfold shift_add_int
  rw [hv, if_pos (by omega)]

/-- On a target whose `int` has 16 bits the expression `(hi << 8) + lo` is the 16-bit word
`256 * hi + lo` only for a high byte below 0x80, and negative otherwise. -/
theorem shift_add_int_16 (hi lo : Byte) :
    shift_add_int 16 hi lo
      = if hi.val < 128 then ((256 * hi.val + lo.val : Nat) : Int)
        else ((256 * hi.val + lo.val : Nat) : Int) - 65536 := by
  have h1 := hi.isLt
  have h2 := lo.isLt
  have hv : (hi.val <<< 8) + lo.val = 256 * hi.val + lo.val := by
    rw [Nat.shiftLeft_eq]
    omega
  unfold shift_add_int
  rw [hv]
  by_cases h : hi.val < 128
  · rw [if_pos h, if_pos (by norm_num; omega)]
  · rw [if_neg h, if_neg (by norm_num; omega)]
    norm_num

/-- C15 (the code at an input where it departs from the claim): for the accepted reply
`[0x1F, 0xAB, 0xCD, 0, 2, 0, 3, 0, 4, 0, 5, 0x5B]` the first item printed after the banner
is `Serial.print((0xAB << 8) + 0xCD, HEX)`; on a target with a 16-bit `int` that argument is
-21555, not the word 0xABCD = 43981 of the claim and not in 0..65535; with a 32-bit `int`
it is 43981. -/
theorem read_serial_number_word_on_16_bit_int (self : CM1106_I2C) :
    (read_serial_number self [0x1F, 0xAB, 0xCD, 0, 2, 0, 3, 0, 4, 0, 5, 0x5B]).serial
      = [SerialItem.str "Serial number >>", SerialItem.ln,
         SerialItem.hex 0xAB 0xCD, SerialItem.str "\t",
         SerialItem.hex 0 2, SerialItem.str "\t",
         SerialItem.hex 0 3, SerialItem.str "\t",
         SerialItem.hex 0 4, SerialItem.str "\t",
         SerialItem.hex 0 5, SerialItem.ln] ∧
    shift_add_int 16 0xAB 0xCD = -21555 ∧
    ¬ (0 ≤ shift_add_int 16 0xAB 0xCD ∧ shift_add_int 16 0xAB 0xCD ≤ 65535) ∧
    shift_add_int 16 0xAB 0xCD ≠ 256 * 0xAB + 0xCD ∧
    shift_add_int 32 0xAB 0xCD = 43981 := by
  refine ⟨?_, by decide, by decide, by decide, by decide⟩
  have hret : (read_serial_number self
      [0x1F, 0xAB, 0xCD, 0, 2, 0, 3, 0, 4, 0, 5, 0x5B]).ret = none := by
    rw [read_serial_number_ret]
    decide
  rw [read_serial_number_serial, if_pos hret]
  rfl

end CM1106
